import Mathlib

set_option maxRecDepth 100000

/-!
Verification of the DTW sales-order file generator (`src/app.py`).

The embedding models pandas cell values, the row validators
(`validate_orders`, `validate_lines`, `validate_date_format`), the string
conversion helpers (`safe_str`, `format_date`) and the two file generators
(`generate_ordr_file`, `generate_rdr1_file`), translated directly from the
source.
-/

/-- A pandas cell value: `vNone` models NaN / Python `None`, `vStr` a Python
string, `vInt` a Python `int`, `vFloat` a Python `float` (modelled as an
exact rational, which is faithful for the decimal values the claims use). -/
inductive Value where
  | vNone : Value
  | vStr (s : String) : Value
  | vInt (n : Int) : Value
  | vFloat (q : Rat) : Value
deriving DecidableEq

open Value

/-- A spreadsheet row: maps a column label to its cell value; `Option.none`
means the column is absent from the table (as opposed to a null cell). -/
def Row : Type := String → Option Value

/-- Build a concrete row from an association list of columns. -/
def rowOf (l : List (String × Value)) : Row := fun k => l.lookup k

/-- Models `row.get(k)` in pandas: a missing column yields `None`, which
the `pd.isna` test treats like NaN, so both collapse to `vNone`. -/
def pyGet (r : Row) (k : String) : Value := (r k).getD vNone

/-- Models `row.get(k, d)`: the default is used only when the column is absent. -/
def pyGetD (r : Row) (k : String) (d : Value) : Value := (r k).getD d

/-- Models `pd.isna`. -/
def isNA : Value → Bool
  | vNone => true
  | _ => false

/-- Python whitespace characters stripped by `str.strip()` (ASCII part). -/
def pyWS (c : Char) : Bool :=
  c = ' ' || c = '\t' || c = '\n' || c = '\x0d' || c = '\x0b' || c = '\x0c'

/-- Models `str.strip()`: drop leading and trailing whitespace. -/
def pyStripList (l : List Char) : List Char :=
  ((l.dropWhile pyWS).reverse.dropWhile pyWS).reverse

/-- Models `str.strip()` on a `String`. -/
def pyStrip (s : String) : String := String.mk (pyStripList s.data)

/-- Decimal digits of a natural number, most significant first
(models `str` applied to a nonnegative `int`; fuel-structured recursion). -/
def natDigitsAux : Nat → Nat → List Char
  | 0, _ => []
  | fuel + 1, n =>
    if n < 10 then [Nat.digitChar n]
    else natDigitsAux fuel (n / 10) ++ [Nat.digitChar (n % 10)]

/-- Models `str(n)` for a nonnegative Python `int`. -/
def natRepr (n : Nat) : String := String.mk (natDigitsAux (n + 1) n)

/-- Models `str(n)` for a Python `int`. -/
def intRepr (i : Int) : String :=
  if i < 0 then "-" ++ natRepr i.natAbs else natRepr i.natAbs

/-- Python `int()` truncation (toward zero) of a float. -/
def pyTrunc (q : Rat) : Int := Int.tdiv q.num q.den

/-- Fractional decimal digits of `r / d` (long division, fuel-bounded;
stops when the remainder is zero, as `str(float)` does for exactly
representable decimals). -/
def fracDigits : Nat → Nat → Nat → List Char
  | 0, _, _ => []
  | _ + 1, 0, _ => []
  | fuel + 1, r, d =>
    Nat.digitChar (r * 10 / d) :: fracDigits fuel (r * 10 % d) d

/-- Models `str(x)` for a Python float whose value is the rational `q`; faithful
for decimal-representable floats (the only ones the program meets). -/
def floatRepr (q : Rat) : String :=
  (if q < 0 then "-" else "") ++
    natRepr (q.num.natAbs / q.den) ++ "." ++
    (if q.num.natAbs % q.den = 0 then "0"
     else String.mk (fracDigits 40 (q.num.natAbs % q.den) q.den))

/-- Python `str()` on a cell value. -/
def pyStr : Value → String
  | vNone => "nan"
  | vStr s => s
  | vInt n => intRepr n
  | vFloat q => floatRepr q

/-- Models `int()` on a string of decimal digits. -/
def chNat (l : List Char) : Nat :=
  l.foldl (fun a c => a * 10 + (c.toNat - '0'.toNat)) 0

/-- Parse the decimal fragment of Python `float(str)`: optional sign,
digits, optional point (models `float()` on the inputs this program can
meet; exponent/inf/nan forms are out of scope). `Option.none` models the
`ValueError` that `float()` raises. -/
def parseDecCore (l1 : List Char) : Option (Nat × Nat) :=
  let ip := l1.takeWhile Char.isDigit
  let r1 := l1.dropWhile Char.isDigit
  match r1 with
  | [] => if ip.isEmpty then Option.none else some (chNat ip, 1)
  | '.' :: fr =>
    if fr.all Char.isDigit && !(ip.isEmpty && fr.isEmpty) then
      some (chNat ip * 10 ^ fr.length + chNat fr, 10 ^ fr.length)
    else Option.none
  | _ => Option.none

/-- Optional sign in front of the digits. -/
def parseDecList (l : List Char) : Option Rat :=
  match l with
  | '-' :: t => (parseDecCore t).map (fun p => mkRat (-(p.1 : Int)) p.2)
  | '+' :: t => (parseDecCore t).map (fun p => mkRat p.1 p.2)
  | _ => (parseDecCore l).map (fun p => mkRat p.1 p.2)

/-- Python `float()` on a cell value; `Option.none` models an exception. -/
def pyFloat : Value → Option Rat
  | vInt n => some (mkRat n 1)
  | vFloat q => some q
  | vStr s => parseDecList (pyStrip s).data
  | vNone => Option.none

/-- The blank-row test used everywhere in the source: the key cell is NaN,
or its stripped string form is empty. -/
def blankKey (r : Row) (k : String) : Bool :=
  isNA (pyGet r k) || pyStrip (pyStr (pyGet r k)) == ""

/-- The required-field test on a value: NaN, or stripped to the empty
string. -/
def blankVal (v : Value) : Bool :=
  isNA v || pyStrip (pyStr v) == ""

/-- Trimmed order key of a row (the stripped string form of the Order #
cell). -/
def orderKey (r : Row) : String := pyStrip (pyStr (pyGet r "Order #"))

/-- Trimmed parent key of a line row (the stripped string form of the
Parent Order # cell). -/
def lineKey (r : Row) : String := pyStrip (pyStr (pyGet r "Parent Order #"))

/-- Models `sep.join(parts)` in Python. -/
def pyJoin (sep : String) : List String → String
  | [] => ""
  | [s] => s
  | s :: t :: rest => s ++ sep ++ pyJoin sep (t :: rest)

/-- Occurrences of a character in a string. -/
def countChar (c : Char) (s : String) : Nat := s.data.count c

example : pyStrip " a b\t" = "a b" := by decide
example : natRepr 120 = "120" := by decide
example : intRepr (-5) = "-5" := by decide
example : floatRepr (mkRat 11 2) = "5.5" := by decide
example : floatRepr (mkRat 5 1) = "5.0" := by decide
example : pyFloat (vStr "abc") = Option.none := by decide
example : pyFloat (vStr " 4.25 ") = some (mkRat 17 4) := by decide
example : pyFloat (vStr "-3.5") = some (mkRat (-7) 2) := by decide
example : pyTrunc (mkRat (-11) 2) = -5 := by decide
example : pyJoin "\t" ["a", "b", "c"] = "a\tb\tc" := by decide

/-- Error-message prefix shared by every row-level message. -/
def rowMsg (n : Nat) (s : String) : String :=
  "Row " ++ natRepr n ++ ": " ++ s

/-- The duplicate-key error message of `validate_orders`. -/
def dupMsg (n : Nat) (k : String) : String :=
  rowMsg n ("Duplicate Order # \x27" ++ k ++ "\x27")

/-- The dangling-parent error message of `validate_lines`. -/
def dangMsg (n : Nat) (k : String) : String :=
  rowMsg n ("Parent Order # \x27" ++ k ++ "\x27 not found in Order Headers")

/-- Models `validate_date_format` (src/app.py lines 200-215): an 8-digit
numeric string whose year is 1900-2100, month 1-12 and day 1-31; a float
is first truncated to an integer and rendered. -/
def validate_date_format (v : Value) : Bool :=
  if isNA v then false
  else
    let date_str :=
      match v with
      | vFloat q => intRepr (pyTrunc q)
      | _ => pyStr v
    if date_str.length ≠ 8 then false
    else if !(date_str.data.all Char.isDigit) then false
    else
      let y := chNat (date_str.data.take 4)
      let m := chNat ((date_str.data.drop 4).take 2)
      let d := chNat ((date_str.data.drop 6).take 2)
      if y < 1900 || y > 2100 || m < 1 || m > 12 || d < 1 || d > 31 then false
      else true

/-- Date-field check used for Document Date and Due Date: required, then
format-checked. -/
def dateFieldErrs (n : Nat) (label : String) (v : Value) : List String :=
  if blankVal v then [rowMsg n (label ++ " is required")]
  else if !(validate_date_format v) then [rowMsg n (label ++ " must be YYYYMMDD format")]
  else []

/-- Errors produced for one non-blank order row; the duplicate flag says
whether the trimmed key was already in the seen-set. -/
def orderRowErrors (isDup : Bool) (n : Nat) (r : Row) : List String :=
  (if isDup then [dupMsg n (orderKey r)] else [])
    ++ dateFieldErrs n "Document Date" (pyGet r "Document Date")
    ++ dateFieldErrs n "Due Date" (pyGet r "Due Date")
    ++ (if blankVal (pyGet r "Customer Code") then [rowMsg n "Customer Code is required"] else [])
    ++ (if blankVal (pyGet r "Sales Code") then [rowMsg n "Sales Code is required"] else [])

/-- The loop of `validate_orders`: `seen` is the accumulating set of seen
keys, `n` the Excel row number of the current row. -/
def ordersGo (seen : List String) (n : Nat) : List Row → List String
  | [] => []
  | r :: rs =>
    if blankKey r "Order #" then ordersGo seen (n + 1) rs
    else orderRowErrors (seen.contains (orderKey r)) n r
      ++ ordersGo (orderKey r :: seen) (n + 1) rs

/-- Models `validate_orders` (src/app.py lines 218-259). -/
def validate_orders (rows : List Row) : List String :=
  if rows.isEmpty then ["No orders found in \x27Sales Order Entry\x27 sheet"]
  else ordersGo [] 2 rows

/-- The quantity checks of `validate_lines`: a NaN quantity is required;
otherwise `float()` is applied (an unparsable value raises, modelled as
`Except.error`), and a non-positive result is an error. -/
def quantityErrs (n : Nat) (r : Row) : Except Unit (List String) :=
  if isNA (pyGet r "Quantity") then Except.ok [rowMsg n "Quantity is required"]
  else
    match pyFloat (pyGetD r "Quantity" (vInt 0)) with
    | Option.none => Except.error ()
    | some q => Except.ok (if q ≤ 0 then [rowMsg n "Quantity must be positive"] else [])

/-- Errors produced for one non-blank line row (src/app.py lines 277-305);
`Except.error` models the `ValueError` escaping from `float()`. -/
def lineRowErrors (valid : List String) (n : Nat) (r : Row) :
    Except Unit (List String) :=
  match quantityErrs n r with
  | Except.error e => Except.error e
  | Except.ok qErrs =>
    Except.ok (
      (if !(valid.contains (lineKey r)) then [dangMsg n (lineKey r)] else [])
      ++ (if isNA (pyGet r "Line #") then [rowMsg n "Line # is required"] else [])
      ++ (if blankVal (pyGet r "Item Code") then [rowMsg n "Item Code is required"] else [])
      ++ qErrs
      ++ (if blankVal (pyGet r "Warehouse") then [rowMsg n "Warehouse is required"] else [])
      ++ (if blankVal (pyGet r "Sales Code") then [rowMsg n "Sales Code is required"] else [])
      ++ (if blankVal (pyGet r "Account Code") then [rowMsg n "Account Code is required"] else [])
      ++ (if blankVal (pyGet r "VAT Group") then [rowMsg n "VAT Group is required"] else []))

/-- The loop of `validate_lines`; an exception in any row propagates and
discards the collected error list, exactly as in Python. -/
def linesGo (valid : List String) (n : Nat) : List Row → Except Unit (List String)
  | [] => Except.ok []
  | r :: rs =>
    if blankKey r "Parent Order #" then linesGo valid (n + 1) rs
    else
      match lineRowErrors valid n r with
      | Except.error e => Except.error e
      | Except.ok errs =>
        match linesGo valid (n + 1) rs with
        | Except.error e => Except.error e
        | Except.ok rest => Except.ok (errs ++ rest)

/-- Models `validate_lines` (src/app.py lines 262-307). -/
def validate_lines (rows : List Row) (valid : List String) : Except Unit (List String) :=
  if rows.isEmpty then Except.ok ["No line items found in \x27Line Items Entry\x27 sheet"]
  else linesGo valid 2 rows

/-- The set of valid order numbers computed by `main` (src/app.py lines
684-687) before line validation: trimmed keys of rows whose Order # cell
is not NaN (a whitespace-only key contributes the empty string). -/
def mainValidOrders (rows : List Row) : List String :=
  (rows.filter (fun r => !(isNA (pyGet r "Order #")))).map orderKey

/-- The key set as the spec words it (for comparison with
`mainValidOrders`): trimmed non-blank Order # values of the order table. -/
def specOrderKeySet (rows : List Row) : List String :=
  (rows.filter (fun r => !(blankKey r "Order #"))).map orderKey

/-- Keys of the non-blank rows strictly before index `i`. -/
def earlierKeys (rows : List Row) (i : Nat) : List String :=
  specOrderKeySet (rows.take i)

example : validate_date_format (vStr "20260115") = true := by decide
example : validate_date_format (vStr "20260231") = true := by decide
example : validate_date_format (vStr "2026115") = false := by decide
example : validate_date_format (vStr "20261301") = false := by decide
example : validate_date_format (vStr "abcd0115") = false := by decide
example : validate_date_format vNone = false := by decide
example : validate_orders [] = ["No orders found in \x27Sales Order Entry\x27 sheet"] := by decide
example : validate_orders [rowOf [("Order #", vStr "  ")]] = [] := by decide
example :
    validate_lines [rowOf [("Parent Order #", vStr "SO1"), ("Quantity", vStr "abc")]] ["SO1"]
      = Except.error () := rfl
example :
    validate_lines [rowOf [("Parent Order #", vStr "SO1"), ("Quantity", vInt 5),
        ("Line #", vStr " "), ("Item Code", vStr "I"), ("Warehouse", vStr "W"),
        ("Sales Code", vStr "S"), ("Account Code", vStr "A"), ("VAT Group", vStr "V")]] ["SO1"]
      = Except.ok [] := rfl

/-- Total ORDR columns (src/app.py line 35). -/
def ORDR_TOTAL_COLS : Nat := 271

/-- Total RDR1 columns (src/app.py line 36). -/
def RDR1_TOTAL_COLS : Nat := 244

/-- Field positions of the ORDR record (0-based). -/
def ORDR_FIELDS : List (String × Nat) :=
  [("DocNum", 0), ("DocType", 2), ("DocDate", 5), ("DocDueDate", 6), ("CardCode", 7), ("SalesPersonCode", 21), ("U_AllowDOInv_Dep", 198), ("U_GSTSGDRate", 202)]

/-- Field positions of the RDR1 record (0-based). -/
def RDR1_FIELDS : List (String × Nat) :=
  [("ParentKey", 0), ("LineNum", 1), ("ItemCode", 2), ("Quantity", 4), ("Price", 6), ("WarehouseCode", 13), ("SalesPersonCode", 14), ("AccountCode", 17), ("CostingCode", 20), ("VatGroup", 23), ("COGSCostingCode", 81), ("CostingCode2", 87), ("CostingCode3", 88), ("CostingCode4", 89), ("CostingCode5", 90), ("COGSCostingCode2", 97), ("COGSCostingCode3", 98), ("COGSCostingCode4", 99), ("COGSCostingCode5", 100), ("U_PermitNum", 171), ("U_GSTSGDRate", 183)]

/-- Position lookup in a field table. -/
def fieldPos (m : List (String × Nat)) (k : String) : Nat :=
  (m.lookup k).getD 0

/-- First header row of the ORDR file (src/app.py lines 78-107). -/
def ORDR_HEADER_ROW1 : List String :=
  ["DocNum", "DocEntry", "DocType", "HandWritten", "Printed", "DocDate", "DocDueDate", "CardCode",
    "CardName", "Address", "NumAtCard", "DocTotal", "AttachmentEntry", "DocCurrency", "DocRate", "Reference1",
    "Reference2", "Comments", "JournalMemo", "PaymentGroupCode", "DocTime", "SalesPersonCode", "TransportationCode", "Confirmed",
    "ImportFileNum", "SummeryType", "ContactPersonCode", "ShowSCN", "Series", "TaxDate", "PartialSupply", "DocObjectCode",
    "ShipToCode", "Indicator", "FederalTaxID", "DiscountPercent", "PaymentReference", "DocTotalFc", "Form1099", "Box1099",
    "RevisionPo", "RequriedDate", "CancelDate", "BlockDunning", "Pick", "PaymentMethod", "PaymentBlock", "PaymentBlockEntry",
    "CentralBankIndicator", "MaximumCashDiscount", "Project", "ExemptionValidityDateFrom", "ExemptionValidityDateTo", "WareHouseUpdateType", "Rounding", "ExternalCorrectedDocNum",
    "InternalCorrectedDocNum", "DeferredTax", "TaxExemptionLetterNum", "AgentCode", "NumberOfInstallments", "ApplyTaxOnFirstInstallment", "VatDate", "DocumentsOwner",
    "FolioPrefixString", "FolioNumber", "DocumentSubType", "BPChannelCode", "BPChannelContact", "Address2", "PayToCode", "ManualNumber",
    "UseShpdGoodsAct", "IsPayToBank", "PayToBankCountry", "PayToBankCode", "PayToBankAccountNo", "PayToBankBranch", "BPL_IDAssignedToInvoice", "DownPayment",
    "ReserveInvoice", "LanguageCode", "TrackingNumber", "PickRemark", "ClosingDate", "SequenceCode", "SequenceSerial", "SeriesString",
    "SubSeriesString", "SequenceModel", "UseCorrectionVATGroup", "DownPaymentAmount", "DownPaymentPercentage", "DownPaymentType", "DownPaymentAmountSC", "DownPaymentAmountFC",
    "VatPercent", "ServiceGrossProfitPercent", "OpeningRemarks", "ClosingRemarks", "RoundingDiffAmount", "ControlAccount", "InsuranceOperation347", "ArchiveNonremovableSalesQuotation",
    "GTSChecker", "GTSPayee", "ExtraMonth", "ExtraDays", "CashDiscountDateOffset", "StartFrom", "NTSApproved", "ETaxWebSite",
    "ETaxNumber", "NTSApprovedNumber", "EDocGenerationType", "EDocSeries", "EDocNum", "EDocExportFormat", "EDocStatus", "EDocErrorCode",
    "EDocErrorMessage", "DownPaymentStatus", "GroupSeries", "GroupNumber", "GroupHandWritten", "ReopenOriginalDocument", "ReopenManuallyClosedOrCanceledDocument", "CreateOnlineQuotation",
    "POSEquipmentNumber", "POSManufacturerSerialNumber", "POSCashierNumber", "ApplyCurrentVATRatesForDownPaymentsToDraw", "ClosingOption", "SpecifiedClosingDate", "OpenForLandedCosts", "RelevantToGTS",
    "AnnualInvoiceDeclarationReference", "Supplier", "Releaser", "Receiver", "BlanketAgreementNumber", "IsAlteration", "AssetValueDate", "DocumentDelivery",
    "AuthorizationCode", "StartDeliveryDate", "StartDeliveryTime", "EndDeliveryDate", "EndDeliveryTime", "VehiclePlate", "ATDocumentType", "ElecCommStatus",
    "ReuseDocumentNum", "ReuseNotaFiscalNum", "PrintSEPADirect", "FiscalDocNum", "POSDailySummaryNo", "POSReceiptNo", "PointOfIssueCode", "Letter",
    "FolioNumberFrom", "FolioNumberTo", "InterimType", "RelatedType", "RelatedEntry", "SAPPassport", "DocumentTaxID", "DateOfReportingControlStatementVAT",
    "ReportingSectionControlStatementVAT", "ExcludeFromTaxReportControlStatementVAT", "POS_CashRegister", "CreateQRCodeFrom", "PriceMode", "CommissionTrade", "CommissionTradeReturn", "UseBillToAddrToDetermineTax",
    "Cig", "Cup", "FatherCard", "FatherType", "ShipState", "ShipPlace", "CustOffice", "FCI",
    "AddLegIn", "LegTextF", "IndFinal", "U_LoanExpDate", "U_Transfer_Type", "U_IGN_RsvDue", "U_IGN_RsvSONum", "U_PCH_ApprvPay",
    "U_RDR_FinancingAppr", "U_Star_Acct", "U_AllowDOInv_Dep", "U_CustPO_Received", "U_RCN_Num", "U_POR_InventoryValue", "U_Appr_LowSlsPrice", "U_Appr_PO_Stock",
    "U_Appr_PO_NStock1", "U_Appr_PO_NStock2", "U_GSTSGDRate", "U_GSTSGDAmt", "U_Vessel", "U_LineBusiness", "U_RDR_IgnoreSpcTerms", "U_Dep_Required",
    "U_Dep_Received", "U_LoanAddr", "U_TRF_SlpName", "U_INM_Purpose", "U_ELTO_RevSchCrt", "U_ELTO_RevSchVal", "U_ELTO_RevCrtdDat", "U_ELTO_BillSchCrt",
    "U_ELTO_BillSchVal", "U_ELTO_BillCrtDat", "U_ELTO_LseTrf", "U_ELTO_LseTransNo", "U_Appr_DiffSQ", "U_FIN_TotalBefDisc", "U_FIN_LessDisc", "U_FIN_AddGST",
    "U_FIN_LessDeposit", "U_FIN_LessDepGST", "U_RefreshInfo", "U_PL_Remarks", "U_RDR_SellPrcSample", "U_Appr_Sample", "U_FIN_GSTDueFmFinc", "U_IntRemarks",
    "U_ImportConsign", "U_EndUserCode", "U_EndUserName", "U_TRF_AccList", "U_ELTO_RSVCode", "U_ELTO_ContactDetail", "U_ELTO_RsvComment", "U_FileName",
    "U_RDocNum", "U_Warehouse_Code", "U_Warehouse", "U_P_Approval_Code", "U_Customer_State", "U_Cust_Territory", "U_Team_Code", "U_Detailman_Code",
    "U_ContractNo", "U_ApplNeoComm", "U_SampleInv", "U_ETA", "U_RecEntry", "U_WMS_BasePick", "U_AutoPick", "U_URGENT",
    "U_WMS_RefNo", "U_WMS_FromHandheld", "U_WMS_DeviceID", "U_WMS_ScnUsr", "U_DeliveryCompt", "U_DeliveryDate", "U_CAPPSUpdate", "U_CAPPSUpdDat",
    "U_CAPPSNum", "U_OrigFile", "U_OrigName", "U_ServFile", "U_ServName", "U_CAPPSStsUpd", "U_CAPPSStsDat"]

/-- Second header row of the ORDR file (src/app.py lines 109-138). -/
def ORDR_HEADER_ROW2 : List String :=
  ["DocNum", "DocEntry", "DocType", "Handwrtten", "Printed", "DocDate", "DocDueDate", "CardCode",
    "CardName", "Address", "NumAtCard", "DocTotal", "AtcEntry", "DocCur", "DocRate", "Ref1",
    "Ref2", "Comments", "JrnlMemo", "GroupNum", "DocTime", "SlpCode", "TrnspCode", "Confirmed",
    "ImportEnt", "SummryType", "CntctCode", "ShowSCN", "Series", "TaxDate", "PartSupply", "ObjType",
    "ShipToCode", "Indicator", "LicTradNum", "DiscPrcnt", "PaymentRef", "UserSign", "DocTotalFC", "Form1099",
    "Box1099", "RevisionPo", "ReqDate", "CancelDate", "BlockDunn", "Pick", "PeyMethod", "PayBlock",
    "PayBlckRef", "CntrlBnk", "MaxDscn", "Project", "FromDate", "ToDate", "UpdInvnt", "Rounding",
    "CorrExt", "CorrInv", "DeferrTax", "LetterNum", "AgentCode", "Installmnt", "VATFirst", "VatDate",
    "OwnerCode", "FolioPref", "FolioNum", "DocSubType", "BPChCode", "BPChCntc", "Address2", "PayToCode",
    "ManualNum", "UseShpdGd", "IsPaytoBnk", "BnkCntry", "BankCode", "BnkAccount", "BnkBranch", "BPLId",
    "DpmPrcnt", "isIns", "LangCode", "TrackNo", "PickRmrk", "ClsDate", "SeqCode", "Serial",
    "SeriesStr", "SubStr", "Model", "UseCorrVat", "DpmAmnt", "DpmPrcnt", "Posted", "DpmAmntSC",
    "DpmAmntFC", "VatPercent", "SrvGpPrcnt", "Header", "Footer", "RoundDif", "CtlAccount", "InsurOp347",
    "IgnRelDoc", "Checker", "Payee", "ExtraMonth", "ExtraDays", "CdcOffset", "PayDuMonth", "NTSApprov",
    "NTSWebSite", "NTSeTaxNo", "NTSApprNo", "EDocGenTyp", "ESeries", "EDocNum", "EDocExpFrm", "EDocStatus",
    "EDocErrCod", "EDocErrMsg", "DpmStatus", "PQTGrpSer", "PQTGrpNum", "PQTGrpHW", "ReopOriDoc", "ReopManCls",
    "OnlineQuo", "POSEqNum", "POSManufSN", "POSCashN", "DpmAsDscnt", "ClosingOpt", "SpecDate", "OpenForLaC",
    "GTSRlvnt", "AnnInvDecR", "Supplier", "Releaser", "Receiver", "AgrNo", "IsAlt", "AssetDate",
    "DocDlvry", "AuthCode", "StDlvDate", "StDlvTime", "EndDlvDate", "EndDlvTime", "VclPlate", "AtDocType",
    "ElCoStatus", "IsReuseNum", "IsReuseNFN", "PrintSEPA", "FiscDocNum", "ZrdAbs", "POSRcptNo", "PTICode",
    "Letter", "FolNumFrom", "FolNumTo", "InterimTyp", "RelatedTyp", "RelatedEnt", "SAPPassprt", "DocTaxID",
    "DateReport", "RepSection", "ExclTaxRep", "PosCashReg", "QRCodeSrc", "PriceMode", "ShipToCode", "ComTrade",
    "ComTradeRt", "UseBilAddr", "CIG", "CUP", "FatherCard", "FatherType", "ShipState", "ShipPlace",
    "CustOffice", "FCI", "AddLegIn", "LegTextF", "DANFELgTxt", "IndFinal", "DataVers", "U_LoanExpDate",
    "U_Transfer_Type", "U_IGN_RsvDue", "U_IGN_RsvSONum", "U_PCH_ApprvPay", "U_RDR_FinancingAppr", "U_Star_Acct", "U_AllowDOInv_Dep", "U_CustPO_Received",
    "U_RCN_Num", "U_POR_InventoryValue", "U_Appr_LowSlsPrice", "U_Appr_PO_Stock", "U_Appr_PO_NStock1", "U_Appr_PO_NStock2", "U_GSTSGDRate", "U_GSTSGDAmt",
    "U_Vessel", "U_LineBusiness", "U_RDR_IgnoreSpcTerms", "U_Dep_Required", "U_Dep_Received", "U_LoanAddr", "U_TRF_SlpName", "U_INM_Purpose",
    "U_ELTO_RevSchCrt", "U_ELTO_RevSchVal", "U_ELTO_RevCrtdDat", "U_ELTO_BillSchCrt", "U_ELTO_BillSchVal", "U_ELTO_BillCrtDat", "U_ELTO_LseTrf", "U_ELTO_LseTransNo",
    "U_Appr_DiffSQ", "U_FIN_TotalBefDisc", "U_FIN_LessDisc", "U_FIN_AddGST", "U_FIN_LessDeposit", "U_FIN_LessDepGST", "U_RefreshInfo", "U_PL_Remarks",
    "U_RDR_SellPrcSample", "U_Appr_Sample", "U_FIN_GSTDueFmFinc", "U_IntRemarks", "U_ImportConsign", "U_EndUserCode", "U_EndUserName", "U_TRF_AccList",
    "U_ELTO_RSVCode", "U_ELTO_ContactDetail", "U_ELTO_RsvComment", "U_FileName", "U_RDocNum", "U_Warehouse_Code", "U_Warehouse", "U_P_Approval_Code",
    "U_Customer_State", "U_Cust_Territory", "U_Team_Code", "U_Detailman_Code", "U_ContractNo", "U_ApplNeoComm", "U_SampleInv", "U_ETA",
    "U_RecEntry", "U_WMS_BasePick", "U_AutoPick", "U_URGENT", "U_WMS_RefNo", "U_WMS_FromHandheld", "U_WMS_DeviceID", "U_WMS_ScnUsr",
    "U_DeliveryCompt", "U_DeliveryDate", "U_CAPPSUpdate", "U_CAPPSUpdDat", "U_CAPPSNum", "U_OrigFile", "U_OrigName"]

/-- First header row of the RDR1 file (src/app.py lines 140-166). -/
def RDR1_HEADER_ROW1 : List String :=
  ["ParentKey", "LineNum", "ItemCode", "ItemDescription", "Quantity", "ShipDate", "Price", "PriceAfterVAT",
    "Currency", "Rate", "DiscountPercent", "VendorNum", "SerialNum", "WarehouseCode", "SalesPersonCode", "CommisionPercent",
    "TreeType", "AccountCode", "UseBaseUnits", "SupplierCatNum", "CostingCode", "ProjectCode", "BarCode", "VatGroup",
    "Height1", "Hight1Unit", "Height2", "Height2Unit", "Lengh1", "Lengh1Unit", "Lengh2", "Lengh2Unit",
    "Weight1", "Weight1Unit", "Weight2", "Weight2Unit", "Factor1", "Factor2", "Factor3", "Factor4",
    "BaseType", "BaseEntry", "BaseLine", "Volume", "VolumeUnit", "Width1", "Width1Unit", "Width2",
    "Width2Unit", "Address", "TaxCode", "TaxType", "TaxLiable", "BackOrder", "FreeText", "ShippingMethod",
    "CorrectionInvoiceItem", "CorrInvAmountToStock", "CorrInvAmountToDiffAcct", "WTLiable", "DeferredTax", "MeasureUnit", "UnitsOfMeasurment", "LineTotal",
    "TaxPercentagePerRow", "TaxTotal", "ConsumerSalesForecast", "ExciseAmount", "CountryOrg", "SWW", "TransactionType", "DistributeExpense",
    "RowTotalFC", "CFOPCode", "CSTCode", "Usage", "TaxOnly", "UnitPrice", "LineStatus", "PackageQuantity",
    "LineType", "COGSCostingCode", "COGSAccountCode", "ChangeAssemlyBoMWarehouse", "GrossBuyPrice", "GrossBase", "GrossProfitTotalBasePrice", "CostingCode2",
    "CostingCode3", "CostingCode4", "CostingCode5", "ItemDetails", "LocationCode", "ActualDeliveryDate", "ExLineNo", "RequiredDate",
    "RequiredQuantity", "COGSCostingCode2", "COGSCostingCode3", "COGSCostingCode4", "COGSCostingCode5", "CSTforIPI", "CSTforPIS", "CSTforCOFINS",
    "CreditOriginCode", "WithoutInventoryMovement", "AgreementNo", "AgreementRowNumber", "ActualBaseEntry", "ActualBaseLine", "DocEntry", "Surpluses",
    "DefectAndBreakup", "Shortages", "ConsiderQuantity", "PartialRetirement", "RetirementQuantity", "RetirementAPC", "ThirdParty", "PoNum",
    "PoItmNum", "ExpenseType", "ReceiptNumber", "ExpenseOperationType", "FederalTaxID", "GrossProfit", "GrossProfitFC", "GrossProfitSC",
    "UoMEntry", "InventoryQuantity", "ParentLineNum", "Incoterms", "TransportMode", "NatureOfTransaction", "DestinationCountryForImport", "DestinationRegionForImport",
    "OriginCountryForExport", "OriginRegionForExport", "ChangeInventoryQuantityIndependently", "FreeOfChargeBP", "SACEntry", "HSNEntry", "GrossPrice", "GrossTotal",
    "GrossTotalFC", "NCMCode", "NVECode", "IndEscala", "CtrSealQty", "CNJPMan", "CESTCode", "UFFiscalBenefitCode",
    "ReverseCharge", "ShipToCode", "ShipToDescription", "OwnerCode", "ExternalCalcTaxRate", "ExternalCalcTaxAmount", "StandardItemIdentification", "CommodityClassification",
    "UnencumberedReason", "CUSplit", "U_ZL_SlpCode", "U_ZL_SlpName", "U_ZL_CardCode", "U_ZL_CardName", "U_ZL_InvoiceNum", "U_ZL_ItemCode",
    "U_ZL_ItemName", "U_BonusItem", "U_HasAlternativeItem", "U_PermitNum", "U_Has_EPoint", "U_PI_Qty", "U_PI_Price", "U_Redemption",
    "U_EPoint_Redeemed", "U_Rebate_RefNum", "U_SLS_Remarks1", "U_SLS_Remarks2", "U_SLS_Remarks3", "U_SLS_Remarks4", "U_SLS_Remarks5", "U_GSTSGDRate",
    "U_GSTSGDAmt", "U_Related_SO_Number", "U_Related_SO_LineNum", "U_QUT_Calc_BOM_Cost", "U_RDR_HasSpcTerms", "U_RDR_SpcPayTerms", "U_TRF_SerialNum", "U_ELTO_DefIncInd",
    "U_ELTO_ConStrDat", "U_ELTO_ConEndDat", "U_ELTO_FreqBill", "U_ELTO_FreqAdvRev", "U_ELTO_BillStrDat", "U_ELTO_LseQty", "U_ELTO_CustPO", "U_ELTO_EstBillAmt",
    "U_ELTO_BillId", "U_ELTO_BillLine", "U_ELTO_NoCustPOApp", "U_ELTO_Lease", "U_ELTO_LseItmCde", "U_ELTO_LseItmDsc", "U_ELTO_LseWhs", "U_ELTO_LseDlvQty",
    "U_ELTO_LseRtnQty", "U_ELTO_RevSchType", "U_ELTO_ContractQty", "U_ELTO_QtyConPrice", "U_ELTO_Prorata", "U_ELTO_BillPeriodFr", "U_ELTO_BillPeriodTo", "U_ELTO_BaseDocEntry",
    "U_ELTO_BaseDocNum", "U_ELTO_BaseRow", "U_FIN_Shown", "U_PL_CartonNum", "U_PL_KgCarton", "U_PL_MYRegNum", "U_TRF_VIT_Prc", "U_TRF_SellingPrice",
    "U_UnitPriceBP", "U_POCountry", "U_Invoice_No", "U_Invoice_Item", "U_Return_Ref_No", "U_P_Customer_Code", "U_ZP_Item_Code", "U_Credit_Reason",
    "U_List_Price", "U_ZP_Customer_Code", "U_Customer_Name", "U_ZP_Invoice_Item", "U_Customer_State", "U_Cust_Territory", "U_TempDivision", "U_RecLines",
    "U_COO", "U_TfrBinTo", "U_TrfFromBin", "U_GRN"]

/-- Second header row of the RDR1 file (src/app.py lines 168-194). -/
def RDR1_HEADER_ROW2 : List String :=
  ["DocNum", "LineNum", "ItemCode", "Dscription", "Quantity", "ShipDate", "Price", "PriceAfVAT",
    "Currency", "Rate", "DiscPrcnt", "VendorNum", "SerialNum", "WhsCode", "SlpCode", "Commission",
    "TreeType", "AcctCode", "UseBaseUn", "SubCatNum", "OcrCode", "Project", "CodeBars", "VatGroup",
    "Height1", "Hght1Unit", "Height2", "Hght2Unit", "Length1", "Len1Unit", "length2", "Len2Unit",
    "Weight1", "Wght1Unit", "Weight2", "Wght2Unit", "Factor1", "Factor2", "Factor3", "Factor4",
    "BaseType", "BaseEntry", "BaseLine", "Volume", "VolUnit", "Width1", "Wdth1Unit", "Width2",
    "Wdth2Unit", "Address", "TaxCode", "TaxType", "TaxStatus", "BackOrdr", "FreeTxt", "TrnsCode",
    "CEECFlag", "ToStock", "ToDiff", "WtLiable", "DeferrTax", "unitMsr", "NumPerMsr", "LineTotal",
    "VatPrcnt", "VatSum", "ConsumeFCT", "ExciseAmt", "CountryOrg", "SWW", "TranType", "DistribExp",
    "TotalFrgn", "CFOPCode", "CSTCode", "Usage", "TaxOnly", "PriceBefDi", "LineStatus", "PackQty",
    "LineType", "CogsOcrCod", "CogsAcct", "ChgAsmBoMW", "GrossBuyPr", "GrossBase", "GPTtlBasPr", "OcrCode2",
    "OcrCode3", "OcrCode4", "OcrCode5", "Text", "LocCode", "ActDelDate", "ExLineNo", "PQTReqDate",
    "PQTReqQty", "CogsOcrCo2", "CogsOcrCo3", "CogsOcrCo4", "CogsOcrCo5", "CSTfIPI", "CSTfPIS", "CSTfCOFINS",
    "CredOrigin", "NoInvtryMv", "AgrNo", "AgrLnNum", "ActBaseEnt", "ActBaseLn", "DocEntry", "Surpluses",
    "DefBreak", "Shortages", "NeedQty", "PartRetire", "RetireQty", "RetireAPC", "ThirdParty", "PoNum",
    "PoItmNum", "ExpType", "ExpUUID", "ExpOpType", "LicTradNum", "GrssProfit", "GrssProfFC", "GrssProfSC",
    "SpecPrice", "UomEntry", "InvQty", "PrntLnNum", "Incoterms", "TransMod", "NatOfTrans", "ISDtCryImp",
    "ISDtRgnImp", "ISOrCryExp", "ISOrRgnExp", "InvQtyOnly", "FreeChrgBP", "SacEntry", "HsnEntry", "GPBefDisc",
    "GTotal", "GTotalFC", "NCMCode", "NVECode", "IndEscala", "CtrSealQty", "CNJPMan", "CESTCode",
    "UFFiscBene", "RevCharge", "ShipToCode", "ShipToDesc", "OwnerCode", "ExtTaxRate", "ExtTaxSum", "ExtTaxSumF",
    "ExtTaxSumS", "StdItemId", "CommClass", "UnencReasn", "CUSplit", "U_ZL_SlpCode", "U_ZL_SlpName", "U_ZL_CardCode",
    "U_ZL_CardName", "U_ZL_InvoiceNum", "U_ZL_ItemCode", "U_ZL_ItemName", "U_BonusItem", "U_HasAlternativeItem", "U_PermitNum", "U_Has_EPoint",
    "U_PI_Qty", "U_PI_Price", "U_Redemption", "U_EPoint_Redeemed", "U_Rebate_RefNum", "U_SLS_Remarks1", "U_SLS_Remarks2", "U_SLS_Remarks3",
    "U_SLS_Remarks4", "U_SLS_Remarks5", "U_GSTSGDRate", "U_GSTSGDAmt", "U_Related_SO_Number", "U_Related_SO_LineNum", "U_QUT_Calc_BOM_Cost", "U_RDR_HasSpcTerms",
    "U_RDR_SpcPayTerms", "U_TRF_SerialNum", "U_ELTO_DefIncInd", "U_ELTO_ConStrDat", "U_ELTO_ConEndDat", "U_ELTO_FreqBill", "U_ELTO_FreqAdvRev", "U_ELTO_BillStrDat",
    "U_ELTO_LseQty", "U_ELTO_CustPO", "U_ELTO_EstBillAmt", "U_ELTO_BillId", "U_ELTO_BillLine", "U_ELTO_NoCustPOApp", "U_ELTO_Lease", "U_ELTO_LseItmCde",
    "U_ELTO_LseItmDsc", "U_ELTO_LseWhs", "U_ELTO_LseDlvQty", "U_ELTO_LseRtnQty", "U_ELTO_RevSchType", "U_ELTO_ContractQty", "U_ELTO_QtyConPrice", "U_ELTO_Prorata",
    "U_ELTO_BillPeriodFr", "U_ELTO_BillPeriodTo", "U_ELTO_BaseDocEntry", "U_ELTO_BaseDocNum", "U_ELTO_BaseRow", "U_FIN_Shown", "U_PL_CartonNum", "U_PL_KgCarton",
    "U_PL_MYRegNum", "U_TRF_VIT_Prc", "U_TRF_SellingPrice", "U_UnitPriceBP", "U_POCountry", "U_Invoice_No", "U_Invoice_Item", "U_Return_Ref_No",
    "U_P_Customer_Code", "U_ZP_Item_Code", "U_Credit_Reason", "U_List_Price", "U_ZP_Customer_Code", "U_Customer_Name", "U_ZP_Invoice_Item", "U_Customer_State",
    "U_Cust_Territory", "U_TempDivision", "U_RecLines", "U_COO"]

/-- Models `format_date` (src/app.py lines 313-319). -/
def format_date (v : Value) : String :=
  match v with
  | vNone => ""
  | vInt n => intRepr n
  | vFloat q => intRepr (pyTrunc q)
  | vStr s => pyStrip s

/-- Models `safe_str` (src/app.py lines 322-330): a float with no
fractional part renders as an integer literal, any other float via
`str`, everything else via `str` with surrounding whitespace stripped. -/
def safe_str (v : Value) : String :=
  match v with
  | vNone => ""
  | vFloat q => if q.den = 1 then intRepr q.num else floatRepr q
  | v => pyStrip (pyStr v)

/-- The positional field array of one ORDR data row (src/app.py lines
348-359): 271 empty fields, then the populated positions. -/
def ordr_row (r : Row) : List String :=
  ((((((((List.replicate ORDR_TOTAL_COLS "").set
    (fieldPos ORDR_FIELDS "DocNum") (safe_str (pyGet r "Order #"))).set
    (fieldPos ORDR_FIELDS "DocType") "dDocument_Items").set
    (fieldPos ORDR_FIELDS "DocDate") (format_date (pyGet r "Document Date"))).set
    (fieldPos ORDR_FIELDS "DocDueDate") (format_date (pyGet r "Due Date"))).set
    (fieldPos ORDR_FIELDS "CardCode") (safe_str (pyGet r "Customer Code"))).set
    (fieldPos ORDR_FIELDS "SalesPersonCode") (safe_str (pyGet r "Sales Code"))).set
    (fieldPos ORDR_FIELDS "U_AllowDOInv_Dep") "Y").set
    (fieldPos ORDR_FIELDS "U_GSTSGDRate") (safe_str (pyGetD r "Branch ID" (vInt 9)))

/-- The lines list built by `generate_ordr_file`: two header lines, then
one tab-joined data row per non-blank input row. -/
def ordrLines (rows : List Row) : List String :=
  pyJoin "\t" ORDR_HEADER_ROW1 :: pyJoin "\t" ORDR_HEADER_ROW2 ::
    (rows.filter (fun r => !(blankKey r "Order #"))).map (fun r => pyJoin "\t" (ordr_row r))

/-- Models `generate_ordr_file` (src/app.py lines 333-363). -/
def generate_ordr_file (rows : List Row) : String :=
  pyJoin "\r\n" (ordrLines rows) ++ "\r\n"

/-- The positional field array of one RDR1 data row (src/app.py lines
381-417). -/
def rdr1_row (r : Row) : List String :=
  let dim1 := safe_str (pyGetD r "Dim 1" (vStr ""))
  let dim2 := safe_str (pyGetD r "Dim 2" (vStr ""))
  let dim3 := safe_str (pyGetD r "Dim 3" (vStr ""))
  let dim4 := safe_str (pyGetD r "Dim 4" (vStr ""))
  let dim5 := safe_str (pyGetD r "Dim 5" (vStr ""))
  (((((((((((((((((((((List.replicate RDR1_TOTAL_COLS "").set
    (fieldPos RDR1_FIELDS "ParentKey") (safe_str (pyGet r "Parent Order #"))).set
    (fieldPos RDR1_FIELDS "LineNum") (safe_str (pyGet r "Line #"))).set
    (fieldPos RDR1_FIELDS "ItemCode") (safe_str (pyGet r "Item Code"))).set
    (fieldPos RDR1_FIELDS "Quantity") (safe_str (pyGet r "Quantity"))).set
    (fieldPos RDR1_FIELDS "Price") (safe_str (pyGetD r "Unit Price" (vStr "")))).set
    (fieldPos RDR1_FIELDS "WarehouseCode") (safe_str (pyGet r "Warehouse"))).set
    (fieldPos RDR1_FIELDS "SalesPersonCode") (safe_str (pyGet r "Sales Code"))).set
    (fieldPos RDR1_FIELDS "AccountCode") (safe_str (pyGet r "Account Code"))).set
    (fieldPos RDR1_FIELDS "VatGroup") (safe_str (pyGet r "VAT Group"))).set
    (fieldPos RDR1_FIELDS "CostingCode") dim1).set
    (fieldPos RDR1_FIELDS "CostingCode2") dim2).set
    (fieldPos RDR1_FIELDS "CostingCode3") dim3).set
    (fieldPos RDR1_FIELDS "CostingCode4") dim4).set
    (fieldPos RDR1_FIELDS "CostingCode5") dim5).set
    (fieldPos RDR1_FIELDS "COGSCostingCode") dim1).set
    (fieldPos RDR1_FIELDS "COGSCostingCode2") dim2).set
    (fieldPos RDR1_FIELDS "COGSCostingCode3") dim3).set
    (fieldPos RDR1_FIELDS "COGSCostingCode4") dim4).set
    (fieldPos RDR1_FIELDS "COGSCostingCode5") dim5).set
    (fieldPos RDR1_FIELDS "U_PermitNum") (safe_str (pyGetD r "Permit #" (vStr "")))).set
    (fieldPos RDR1_FIELDS "U_GSTSGDRate") (safe_str (pyGetD r "Branch" (vInt 9)))

/-- The lines list built by `generate_rdr1_file`. -/
def rdr1Lines (rows : List Row) : List String :=
  pyJoin "\t" RDR1_HEADER_ROW1 :: pyJoin "\t" RDR1_HEADER_ROW2 ::
    (rows.filter (fun r => !(blankKey r "Parent Order #"))).map (fun r => pyJoin "\t" (rdr1_row r))

/-- Models `generate_rdr1_file` (src/app.py lines 366-421). -/
def generate_rdr1_file (rows : List Row) : String :=
  pyJoin "\r\n" (rdr1Lines rows) ++ "\r\n"

example : ORDR_HEADER_ROW1.length = 271 := by decide
example : ORDR_HEADER_ROW2.length = 271 := by decide
example : RDR1_HEADER_ROW1.length = 244 := by decide
example : RDR1_HEADER_ROW2.length = 244 := by decide
example : (ordr_row (rowOf [])).length = 271 := by decide
example : (rdr1_row (rowOf [])).length = 244 := by decide
example : safe_str (vFloat (mkRat 5 1)) = "5" := by decide
example : safe_str (vFloat (mkRat 11 2)) = "5.5" := by decide
example : (ordr_row (rowOf [("Order #", vStr "SO1001")])).getD 0 "" = "SO1001" := by decide
example : (ordr_row (rowOf [])).getD 2 "" = "dDocument_Items" := by decide
example : (ordr_row (rowOf [])).getD 202 "" = "9" := by decide
example : (ordr_row (rowOf [("Branch ID", vNone)])).getD 202 "" = "" := by decide
example : (rdr1_row (rowOf [("Dim 1", vStr "D100")])).getD 20 "" = "D100" := by decide
example : (rdr1_row (rowOf [("Dim 1", vStr "D100")])).getD 81 "" = "D100" := by decide

lemma countChar_append (c : Char) (s t : String) :
    countChar c (s ++ t) = countChar c s + countChar c t := by
  simp [countChar, String.data_append]

lemma countChar_pyJoin (c : Char) (sep : String) :
    ∀ l : List String, l ≠ [] →
      countChar c (pyJoin sep l)
        = (l.map (countChar c)).sum + (l.length - 1) * countChar c sep
  | [], h => absurd rfl h
  | [s], _ => by simp [pyJoin]
  | s :: t :: rest, _ => by
    have ih := countChar_pyJoin c sep (t :: rest) (by simp)
    simp only [pyJoin, countChar_append, ih, List.map_cons, List.sum_cons,
      List.length_cons, Nat.add_sub_cancel]
    ring

/-- Characters that break the tab-separated CRLF line structure. -/
def badChars : List Char := ['\t', '\x0d', '\n']

/-- A string free of tabs, carriage returns and line feeds. -/
def cleanStr (s : String) : Prop := ∀ c ∈ badChars, c ∉ s.data

instance (s : String) : Decidable (cleanStr s) := by
  unfold cleanStr; infer_instance

lemma cleanStr_append {s t : String} (hs : cleanStr s) (ht : cleanStr t) :
    cleanStr (s ++ t) := by
  intro c hc
  rw [String.data_append]
  simp only [List.mem_append, not_or]
  exact ⟨hs c hc, ht c hc⟩

lemma mem_pyStripList {l : List Char} {c : Char} (h : c ∈ pyStripList l) : c ∈ l := by
  unfold pyStripList at h
  rw [List.mem_reverse] at h
  have h2 := List.Sublist.mem h (List.dropWhile_sublist pyWS)
  rw [List.mem_reverse] at h2
  exact List.Sublist.mem h2 (List.dropWhile_sublist pyWS)

lemma cleanStr_pyStrip {s : String} (hs : cleanStr s) : cleanStr (pyStrip s) :=
  fun c hc hmem => hs c hc (mem_pyStripList hmem)

lemma digitChar_isDigit {d : Nat} (h : d < 10) : (Nat.digitChar d).isDigit := by
  interval_cases d <;> decide

lemma natDigitsAux_digits :
    ∀ (fuel n : Nat) (c : Char), c ∈ natDigitsAux fuel n → c.isDigit := by
  intro fuel
  induction fuel with
  | zero => intro n c hc; simp [natDigitsAux] at hc
  | succ f ih =>
    intro n c hc
    unfold natDigitsAux at hc
    by_cases hn : n < 10
    · rw [if_pos hn] at hc
      simp only [List.mem_singleton] at hc
      exact hc ▸ digitChar_isDigit hn
    · rw [if_neg hn] at hc
      rcases List.mem_append.1 hc with h | h
      · exact ih _ c h
      · simp only [List.mem_singleton] at h
        exact h ▸ digitChar_isDigit (Nat.mod_lt n (by decide))

lemma cleanStr_natRepr (n : Nat) : cleanStr (natRepr n) := by
  intro c hc hmem
  have hd := natDigitsAux_digits (n + 1) n c hmem
  fin_cases hc <;> exact absurd hd (by decide)

lemma cleanStr_intRepr (i : Int) : cleanStr (intRepr i) := by
  unfold intRepr
  split
  · exact cleanStr_append (by decide) (cleanStr_natRepr _)
  · exact cleanStr_natRepr _

lemma fracDigits_digits :
    ∀ (fuel r d : Nat), r < d → ∀ c : Char, c ∈ fracDigits fuel r d → c.isDigit := by
  intro fuel
  induction fuel with
  | zero => intro r d _ c hc; simp [fracDigits] at hc
  | succ f ih =>
    intro r d hrd c hc
    have hdpos : 0 < d := Nat.lt_of_le_of_lt (Nat.zero_le r) hrd
    cases r with
    | zero => simp [fracDigits] at hc
    | succ r =>
      unfold fracDigits at hc
      rcases List.mem_cons.1 hc with h | h
      · subst h
        exact digitChar_isDigit ((Nat.div_lt_iff_lt_mul hdpos).2 (by omega))
      · exact ih _ _ (Nat.mod_lt _ hdpos) c h

lemma cleanStr_of_digits {l : List Char} (h : ∀ c ∈ l, c.isDigit) :
    cleanStr (String.mk l) := by
  intro c hc hmem
  have hd := h c hmem
  fin_cases hc <;> exact absurd hd (by decide)

lemma cleanStr_floatRepr (q : Rat) : cleanStr (floatRepr q) := by
  unfold floatRepr
  refine cleanStr_append (cleanStr_append (cleanStr_append ?_ (cleanStr_natRepr _)) (by decide)) ?_
  · split <;> decide
  · split
    · decide
    · exact cleanStr_of_digits
        (fun c hc => fracDigits_digits _ _ _ (Nat.mod_lt _ q.den_pos) c hc)

/-- A cell value whose string content is free of tabs, carriage returns
and line feeds (non-string values always render cleanly). -/
def tabFreeVal : Value → Prop
  | vStr s => cleanStr s
  | _ => True

/-- All cells of a row are tab-free. -/
def tabFreeRow (r : Row) : Prop := ∀ k v, r k = some v → tabFreeVal v

/-- All rows of a table are tab-free. -/
def tabFreeTable (rows : List Row) : Prop := ∀ r ∈ rows, tabFreeRow r

lemma tabFree_pyGet {r : Row} (h : tabFreeRow r) (k : String) :
    tabFreeVal (pyGet r k) := by
  unfold pyGet
  cases hrk : r k with
  | none => trivial
  | some v => exact h k v hrk

lemma tabFree_pyGetD {r : Row} (h : tabFreeRow r) (k : String) {d : Value}
    (hd : tabFreeVal d) : tabFreeVal (pyGetD r k d) := by
  unfold pyGetD
  cases hrk : r k with
  | none => exact hd
  | some v => exact h k v hrk

lemma cleanStr_pyStr {v : Value} (h : tabFreeVal v) : cleanStr (pyStr v) := by
  cases v with
  | vNone => decide
  | vStr s => exact h
  | vInt n => exact cleanStr_intRepr n
  | vFloat q => exact cleanStr_floatRepr q

lemma cleanStr_safe_str {v : Value} (h : tabFreeVal v) : cleanStr (safe_str v) := by
  cases v with
  | vNone => decide
  | vStr s => exact cleanStr_pyStrip h
  | vInt n => exact cleanStr_pyStrip (cleanStr_intRepr n)
  | vFloat q =>
    show cleanStr (if q.den = 1 then intRepr q.num else floatRepr q)
    split
    · exact cleanStr_intRepr _
    · exact cleanStr_floatRepr _

lemma cleanStr_format_date {v : Value} (h : tabFreeVal v) :
    cleanStr (format_date v) := by
  cases v with
  | vNone => decide
  | vStr s => exact cleanStr_pyStrip h
  | vInt n => exact cleanStr_intRepr n
  | vFloat q => exact cleanStr_intRepr _

lemma tabFree_emptyStr : tabFreeVal (vStr "") := by
  show cleanStr ""
  intro c hc hmem
  simp at hmem

lemma clean_set {l : List String} {i : Nat} {v : String}
    (hl : ∀ s ∈ l, cleanStr s) (hv : cleanStr v) :
    ∀ s ∈ l.set i v, cleanStr s := by
  intro s hs
  rcases List.mem_or_eq_of_mem_set hs with h | rfl
  · exact hl s h
  · exact hv

lemma clean_replicate (n : Nat) : ∀ s ∈ List.replicate n "", cleanStr s := by
  intro s hs
  rw [List.eq_of_mem_replicate hs]
  decide

lemma ordr_row_clean {r : Row} (h : tabFreeRow r) :
    ∀ s ∈ ordr_row r, cleanStr s := by
  unfold ordr_row
  refine clean_set (clean_set (clean_set (clean_set (clean_set (clean_set
    (clean_set (clean_set (clean_replicate _) ?_) ?_) ?_) ?_) ?_) ?_) ?_) ?_
  · exact cleanStr_safe_str (tabFree_pyGet h _)
  · decide
  · exact cleanStr_format_date (tabFree_pyGet h _)
  · exact cleanStr_format_date (tabFree_pyGet h _)
  · exact cleanStr_safe_str (tabFree_pyGet h _)
  · exact cleanStr_safe_str (tabFree_pyGet h _)
  · decide
  · exact cleanStr_safe_str (tabFree_pyGetD h _ trivial)

lemma rdr1_row_clean {r : Row} (h : tabFreeRow r) :
    ∀ s ∈ rdr1_row r, cleanStr s := by
  have hdim : ∀ k, cleanStr (safe_str (pyGetD r k (vStr ""))) :=
    fun k => cleanStr_safe_str (tabFree_pyGetD h k tabFree_emptyStr)
  unfold rdr1_row
  refine clean_set (clean_set (clean_set (clean_set (clean_set (clean_set
    (clean_set (clean_set (clean_set (clean_set (clean_set (clean_set
    (clean_set (clean_set (clean_set (clean_set (clean_set (clean_set
    (clean_set (clean_set (clean_set (clean_replicate _)
    ?_) ?_) ?_) ?_) ?_) ?_) ?_) ?_) ?_) ?_) ?_) ?_) ?_) ?_) ?_) ?_) ?_) ?_) ?_) ?_) ?_
  · exact cleanStr_safe_str (tabFree_pyGet h _)
  · exact cleanStr_safe_str (tabFree_pyGet h _)
  · exact cleanStr_safe_str (tabFree_pyGet h _)
  · exact cleanStr_safe_str (tabFree_pyGet h _)
  · exact hdim _
  · exact cleanStr_safe_str (tabFree_pyGet h _)
  · exact cleanStr_safe_str (tabFree_pyGet h _)
  · exact cleanStr_safe_str (tabFree_pyGet h _)
  · exact cleanStr_safe_str (tabFree_pyGet h _)
  · exact hdim _
  · exact hdim _
  · exact hdim _
  · exact hdim _
  · exact hdim _
  · exact hdim _
  · exact hdim _
  · exact hdim _
  · exact hdim _
  · exact hdim _
  · exact hdim _
  · exact cleanStr_safe_str (tabFree_pyGetD h _ trivial)

lemma count_pyJoinTab {l : List String} (hne : l ≠ []) (h : ∀ s ∈ l, cleanStr s) :
    countChar '\t' (pyJoin "\t" l) = l.length - 1
    ∧ countChar '\x0d' (pyJoin "\t" l) = 0
    ∧ countChar '\n' (pyJoin "\t" l) = 0 := by
  have hz : ∀ c : Char, c ∈ badChars → (l.map (countChar c)).sum = 0 := by
    intro c hc
    refine List.sum_eq_zero ?_
    intro x hx
    rcases List.mem_map.1 hx with ⟨s, hs, rfl⟩
    exact List.count_eq_zero.2 (h s hs c hc)
  refine ⟨?_, ?_, ?_⟩ <;> rw [countChar_pyJoin _ _ _ hne]
  · rw [hz '\t' (by decide)]
    have h1 : countChar '\t' "\t" = 1 := by decide
    rw [h1]
    omega
  · rw [hz '\x0d' (by decide)]
    have h1 : countChar '\x0d' "\t" = 0 := by decide
    rw [h1]
    omega
  · rw [hz '\n' (by decide)]
    have h1 : countChar '\n' "\t" = 0 := by decide
    rw [h1]
    omega

lemma ordr_row_length (r : Row) : (ordr_row r).length = 271 := by
  simp [ordr_row, ORDR_TOTAL_COLS]

lemma rdr1_row_length (r : Row) : (rdr1_row r).length = 244 := by
  simp [rdr1_row, RDR1_TOTAL_COLS]

lemma ordr_row_ne_nil (r : Row) : ordr_row r ≠ [] := by
  intro h
  have := ordr_row_length r
  rw [h] at this
  simp at this

lemma rdr1_row_ne_nil (r : Row) : rdr1_row r ≠ [] := by
  intro h
  have := rdr1_row_length r
  rw [h] at this
  simp at this

lemma ordr_line_counts {r : Row} (h : tabFreeRow r) :
    countChar '\t' (pyJoin "\t" (ordr_row r)) = 270
    ∧ countChar '\x0d' (pyJoin "\t" (ordr_row r)) = 0
    ∧ countChar '\n' (pyJoin "\t" (ordr_row r)) = 0 := by
  have hc := count_pyJoinTab (ordr_row_ne_nil r) (ordr_row_clean h)
  rw [ordr_row_length r] at hc
  exact hc

lemma rdr1_line_counts {r : Row} (h : tabFreeRow r) :
    countChar '\t' (pyJoin "\t" (rdr1_row r)) = 243
    ∧ countChar '\x0d' (pyJoin "\t" (rdr1_row r)) = 0
    ∧ countChar '\n' (pyJoin "\t" (rdr1_row r)) = 0 := by
  have hc := count_pyJoinTab (rdr1_row_ne_nil r) (rdr1_row_clean h)
  rw [rdr1_row_length r] at hc
  exact hc

lemma ordr_h1_clean : ∀ s ∈ ORDR_HEADER_ROW1, cleanStr s := by decide
lemma ordr_h2_clean : ∀ s ∈ ORDR_HEADER_ROW2, cleanStr s := by decide
lemma rdr1_h1_clean : ∀ s ∈ RDR1_HEADER_ROW1, cleanStr s := by decide
lemma rdr1_h2_clean : ∀ s ∈ RDR1_HEADER_ROW2, cleanStr s := by decide

/-- The C1 output-structure property for both generated files: the exact
line list (two tab-joined header rows, then one tab-joined data row per
non-blank input row, joined by CRLF with a trailing CRLF), the header
widths, the line count, and per-line tab/CR/LF counts. -/
def fileStructureOk (orders lineItems : List Row) : Prop :=
  generate_ordr_file orders = pyJoin "\x0d\n" (ordrLines orders) ++ "\x0d\n"
  ∧ ordrLines orders
      = pyJoin "\t" ORDR_HEADER_ROW1 :: pyJoin "\t" ORDR_HEADER_ROW2 ::
        (orders.filter (fun r => !(blankKey r "Order #"))).map
          (fun r => pyJoin "\t" (ordr_row r))
  ∧ ORDR_HEADER_ROW1.length = 271
  ∧ ORDR_HEADER_ROW2.length = 271
  ∧ (ordrLines orders).length
      = 2 + (orders.filter (fun r => !(blankKey r "Order #"))).length
  ∧ (∀ l ∈ ordrLines orders,
      countChar '\t' l = 270 ∧ countChar '\x0d' l = 0 ∧ countChar '\n' l = 0)
  ∧ generate_rdr1_file lineItems = pyJoin "\x0d\n" (rdr1Lines lineItems) ++ "\x0d\n"
  ∧ rdr1Lines lineItems
      = pyJoin "\t" RDR1_HEADER_ROW1 :: pyJoin "\t" RDR1_HEADER_ROW2 ::
        (lineItems.filter (fun r => !(blankKey r "Parent Order #"))).map
          (fun r => pyJoin "\t" (rdr1_row r))
  ∧ RDR1_HEADER_ROW1.length = 244
  ∧ RDR1_HEADER_ROW2.length = 244
  ∧ (rdr1Lines lineItems).length
      = 2 + (lineItems.filter (fun r => !(blankKey r "Parent Order #"))).length
  ∧ (∀ l ∈ rdr1Lines lineItems,
      countChar '\t' l = 243 ∧ countChar '\x0d' l = 0 ∧ countChar '\n' l = 0)

/-- C1 (amended): for every pair of input tables whose string cells are
free of tab, CR and LF characters, each generated file is exactly the two
verbatim header lines (271 labels for ORDR, 244 for RDR1) followed by one
data line per non-blank input row (null or whitespace-only keys skipped),
every line a width-sized field array joined by tabs (tab count width - 1,
no embedded CR/LF), lines joined by CRLF with a trailing CRLF.  The
tab-free proviso is forced by `claim_C1_counterexample`. -/
theorem claim_C1_file_structure (orders lineItems : List Row)
    (ho : tabFreeTable orders) (hl : tabFreeTable lineItems) :
    fileStructureOk orders lineItems := by
  have hcnt : ∀ l ∈ ordrLines orders,
      countChar '\t' l = 270 ∧ countChar '\x0d' l = 0 ∧ countChar '\n' l = 0 := by
    intro l hmem
    rcases List.mem_cons.1 hmem with rfl | hmem
    · have := count_pyJoinTab (l := ORDR_HEADER_ROW1) (by decide) ordr_h1_clean
      simpa using this
    rcases List.mem_cons.1 hmem with rfl | hmem
    · have := count_pyJoinTab (l := ORDR_HEADER_ROW2) (by decide) ordr_h2_clean
      simpa using this
    · rcases List.mem_map.1 hmem with ⟨r, hr, rfl⟩
      exact ordr_line_counts (ho r (List.mem_of_mem_filter hr))
  have hcnt2 : ∀ l ∈ rdr1Lines lineItems,
      countChar '\t' l = 243 ∧ countChar '\x0d' l = 0 ∧ countChar '\n' l = 0 := by
    intro l hmem
    rcases List.mem_cons.1 hmem with rfl | hmem
    · have := count_pyJoinTab (l := RDR1_HEADER_ROW1) (by decide) rdr1_h1_clean
      simpa using this
    rcases List.mem_cons.1 hmem with rfl | hmem
    · have := count_pyJoinTab (l := RDR1_HEADER_ROW2) (by decide) rdr1_h2_clean
      simpa using this
    · rcases List.mem_map.1 hmem with ⟨r, hr, rfl⟩
      exact rdr1_line_counts (hl r (List.mem_of_mem_filter hr))
  refine ⟨rfl, rfl, by decide, by decide, ?_, hcnt, rfl, rfl, by decide, by decide, ?_, hcnt2⟩
  · simp [ordrLines]
    omega
  · simp [rdr1Lines]
    omega

/-- A non-blank order row whose key contains an embedded tab character. -/
def tabRow : Row := rowOf [("Order #", vStr "A\tB")]

/-- C1 counterexample: with a tab inside a cell value the data line of the
271-column ORDR file carries 271 tab characters, not width - 1 = 270, so
the claim as stated (for every input table) is false. -/
theorem claim_C1_counterexample :
    blankKey tabRow "Order #" = false
    ∧ ordrLines [tabRow]
        = [pyJoin "\t" ORDR_HEADER_ROW1, pyJoin "\t" ORDR_HEADER_ROW2,
           pyJoin "\t" (ordr_row tabRow)]
    ∧ countChar '\t' (pyJoin "\t" (ordr_row tabRow)) = 271 :=
  ⟨by decide, rfl, by decide⟩

/-- Witness for C1: the amended theorem applied to concrete (empty,
trivially tab-free) tables. -/
theorem claim_C1_file_structure_witness :
    tabFreeTable ([] : List Row) ∧ fileStructureOk [] [] :=
  ⟨by simp [tabFreeTable],
   claim_C1_file_structure [] [] (by simp [tabFreeTable]) (by simp [tabFreeTable])⟩

lemma getD_set_self {l : List String} {i : Nat} {v : String} (h : i < l.length) :
    (l.set i v).getD i "" = v := by
  rw [List.getD_eq_getElem?_getD, List.getElem?_set_eq_of_lt v h]
  rfl

lemma getD_set_ne {l : List String} {i j : Nat} {v : String} (h : ¬ i = j) :
    (l.set i v).getD j "" = l.getD j "" := by
  rw [List.getD_eq_getElem?_getD, List.getElem?_set_ne h, List.getD_eq_getElem?_getD]


@[simp] lemma posO_DocNum : fieldPos ORDR_FIELDS "DocNum" = 0 := rfl
@[simp] lemma posO_DocType : fieldPos ORDR_FIELDS "DocType" = 2 := rfl
@[simp] lemma posO_DocDate : fieldPos ORDR_FIELDS "DocDate" = 5 := rfl
@[simp] lemma posO_DocDueDate : fieldPos ORDR_FIELDS "DocDueDate" = 6 := rfl
@[simp] lemma posO_CardCode : fieldPos ORDR_FIELDS "CardCode" = 7 := rfl
@[simp] lemma posO_SalesPersonCode : fieldPos ORDR_FIELDS "SalesPersonCode" = 21 := rfl
@[simp] lemma posO_U_AllowDOInv_Dep : fieldPos ORDR_FIELDS "U_AllowDOInv_Dep" = 198 := rfl
@[simp] lemma posO_U_GSTSGDRate : fieldPos ORDR_FIELDS "U_GSTSGDRate" = 202 := rfl
@[simp] lemma posR_ParentKey : fieldPos RDR1_FIELDS "ParentKey" = 0 := rfl
@[simp] lemma posR_LineNum : fieldPos RDR1_FIELDS "LineNum" = 1 := rfl
@[simp] lemma posR_ItemCode : fieldPos RDR1_FIELDS "ItemCode" = 2 := rfl
@[simp] lemma posR_Quantity : fieldPos RDR1_FIELDS "Quantity" = 4 := rfl
@[simp] lemma posR_Price : fieldPos RDR1_FIELDS "Price" = 6 := rfl
@[simp] lemma posR_WarehouseCode : fieldPos RDR1_FIELDS "WarehouseCode" = 13 := rfl
@[simp] lemma posR_SalesPersonCode : fieldPos RDR1_FIELDS "SalesPersonCode" = 14 := rfl
@[simp] lemma posR_AccountCode : fieldPos RDR1_FIELDS "AccountCode" = 17 := rfl
@[simp] lemma posR_CostingCode : fieldPos RDR1_FIELDS "CostingCode" = 20 := rfl
@[simp] lemma posR_VatGroup : fieldPos RDR1_FIELDS "VatGroup" = 23 := rfl
@[simp] lemma posR_COGSCostingCode : fieldPos RDR1_FIELDS "COGSCostingCode" = 81 := rfl
@[simp] lemma posR_CostingCode2 : fieldPos RDR1_FIELDS "CostingCode2" = 87 := rfl
@[simp] lemma posR_CostingCode3 : fieldPos RDR1_FIELDS "CostingCode3" = 88 := rfl
@[simp] lemma posR_CostingCode4 : fieldPos RDR1_FIELDS "CostingCode4" = 89 := rfl
@[simp] lemma posR_CostingCode5 : fieldPos RDR1_FIELDS "CostingCode5" = 90 := rfl
@[simp] lemma posR_COGSCostingCode2 : fieldPos RDR1_FIELDS "COGSCostingCode2" = 97 := rfl
@[simp] lemma posR_COGSCostingCode3 : fieldPos RDR1_FIELDS "COGSCostingCode3" = 98 := rfl
@[simp] lemma posR_COGSCostingCode4 : fieldPos RDR1_FIELDS "COGSCostingCode4" = 99 := rfl
@[simp] lemma posR_COGSCostingCode5 : fieldPos RDR1_FIELDS "COGSCostingCode5" = 100 := rfl
@[simp] lemma posR_U_PermitNum : fieldPos RDR1_FIELDS "U_PermitNum" = 171 := rfl
@[simp] lemma posR_U_GSTSGDRate : fieldPos RDR1_FIELDS "U_GSTSGDRate" = 183 := rfl

/-- C9: every dimension value is written identically into its primary
costing-code position (20, 87, 88, 89, 90) and its mirrored COGS position
(81, 97, 98, 99, 100) of the generated 244-wide line record, so the two
position sets always hold equal values. -/
theorem claim_C9_dimension_mirroring (r : Row) :
    fieldPos RDR1_FIELDS "CostingCode" = 20 ∧ fieldPos RDR1_FIELDS "COGSCostingCode" = 81
    ∧ fieldPos RDR1_FIELDS "CostingCode2" = 87 ∧ fieldPos RDR1_FIELDS "COGSCostingCode2" = 97
    ∧ fieldPos RDR1_FIELDS "CostingCode3" = 88 ∧ fieldPos RDR1_FIELDS "COGSCostingCode3" = 98
    ∧ fieldPos RDR1_FIELDS "CostingCode4" = 89 ∧ fieldPos RDR1_FIELDS "COGSCostingCode4" = 99
    ∧ fieldPos RDR1_FIELDS "CostingCode5" = 90 ∧ fieldPos RDR1_FIELDS "COGSCostingCode5" = 100
    ∧ (rdr1_row r).getD 20 "" = safe_str (pyGetD r "Dim 1" (vStr ""))
    ∧ (rdr1_row r).getD 81 "" = safe_str (pyGetD r "Dim 1" (vStr ""))
    ∧ (rdr1_row r).getD 87 "" = safe_str (pyGetD r "Dim 2" (vStr ""))
    ∧ (rdr1_row r).getD 97 "" = safe_str (pyGetD r "Dim 2" (vStr ""))
    ∧ (rdr1_row r).getD 88 "" = safe_str (pyGetD r "Dim 3" (vStr ""))
    ∧ (rdr1_row r).getD 98 "" = safe_str (pyGetD r "Dim 3" (vStr ""))
    ∧ (rdr1_row r).getD 89 "" = safe_str (pyGetD r "Dim 4" (vStr ""))
    ∧ (rdr1_row r).getD 99 "" = safe_str (pyGetD r "Dim 4" (vStr ""))
    ∧ (rdr1_row r).getD 90 "" = safe_str (pyGetD r "Dim 5" (vStr ""))
    ∧ (rdr1_row r).getD 100 "" = safe_str (pyGetD r "Dim 5" (vStr ""))
    ∧ (rdr1_row r).getD 20 "" = (rdr1_row r).getD 81 ""
    ∧ (rdr1_row r).getD 87 "" = (rdr1_row r).getD 97 ""
    ∧ (rdr1_row r).getD 88 "" = (rdr1_row r).getD 98 ""
    ∧ (rdr1_row r).getD 89 "" = (rdr1_row r).getD 99 ""
    ∧ (rdr1_row r).getD 90 "" = (rdr1_row r).getD 100 "" := by
  refine ⟨rfl, rfl, rfl, rfl, rfl, rfl, rfl, rfl, rfl, rfl,
    ?_, ?_, ?_, ?_, ?_, ?_, ?_, ?_, ?_, ?_, ?_, ?_, ?_, ?_, ?_⟩ <;>
  · simp only [rdr1_row, posR_ParentKey, posR_LineNum, posR_ItemCode, posR_Quantity,
      posR_Price, posR_WarehouseCode, posR_SalesPersonCode, posR_AccountCode, posR_VatGroup,
      posR_CostingCode, posR_COGSCostingCode, posR_CostingCode2, posR_CostingCode3,
      posR_CostingCode4, posR_CostingCode5, posR_COGSCostingCode2, posR_COGSCostingCode3,
      posR_COGSCostingCode4, posR_COGSCostingCode5, posR_U_PermitNum, posR_U_GSTSGDRate]
    norm_num [getD_set_ne, getD_set_self, RDR1_TOTAL_COLS]

/-- C7 (amended): the DocType position holds the constant literal, the
deposit-allowance position holds "Y", and the rate positions hold the
stringified branch value, with the default "9" applying exactly when the
branch COLUMN is absent from the row; a present-but-null branch cell
renders as the empty string (forced by `claim_C7_counterexample`). -/
theorem claim_C7_constant_fields (r : Row) :
    fieldPos ORDR_FIELDS "DocType" = 2
    ∧ fieldPos ORDR_FIELDS "U_AllowDOInv_Dep" = 198
    ∧ fieldPos ORDR_FIELDS "U_GSTSGDRate" = 202
    ∧ fieldPos RDR1_FIELDS "U_GSTSGDRate" = 183
    ∧ (ordr_row r).getD 2 "" = "dDocument_Items"
    ∧ (ordr_row r).getD 198 "" = "Y"
    ∧ (r "Branch ID" = Option.none → (ordr_row r).getD 202 "" = "9")
    ∧ (∀ v, r "Branch ID" = some v → (ordr_row r).getD 202 "" = safe_str v)
    ∧ (r "Branch" = Option.none → (rdr1_row r).getD 183 "" = "9")
    ∧ (∀ v, r "Branch" = some v → (rdr1_row r).getD 183 "" = safe_str v) := by
  have hOrdr : (ordr_row r).getD 202 "" = safe_str (pyGetD r "Branch ID" (vInt 9)) := by
    simp only [ordr_row, posO_DocNum, posO_DocType, posO_DocDate, posO_DocDueDate,
      posO_CardCode, posO_SalesPersonCode, posO_U_AllowDOInv_Dep, posO_U_GSTSGDRate]
    norm_num [getD_set_ne, getD_set_self, ORDR_TOTAL_COLS]
  have hRdr1 : (rdr1_row r).getD 183 "" = safe_str (pyGetD r "Branch" (vInt 9)) := by
    simp only [rdr1_row, posR_ParentKey, posR_LineNum, posR_ItemCode, posR_Quantity,
      posR_Price, posR_WarehouseCode, posR_SalesPersonCode, posR_AccountCode, posR_VatGroup,
      posR_CostingCode, posR_COGSCostingCode, posR_CostingCode2, posR_CostingCode3,
      posR_CostingCode4, posR_CostingCode5, posR_COGSCostingCode2, posR_COGSCostingCode3,
      posR_COGSCostingCode4, posR_COGSCostingCode5, posR_U_PermitNum, posR_U_GSTSGDRate]
    norm_num [getD_set_ne, getD_set_self, RDR1_TOTAL_COLS]
  refine ⟨rfl, rfl, rfl, rfl, ?_, ?_, ?_, ?_, ?_, ?_⟩
  · simp only [ordr_row, posO_DocNum, posO_DocType, posO_DocDate, posO_DocDueDate,
      posO_CardCode, posO_SalesPersonCode, posO_U_AllowDOInv_Dep, posO_U_GSTSGDRate]
    norm_num [getD_set_ne, getD_set_self, ORDR_TOTAL_COLS]
  · simp only [ordr_row, posO_DocNum, posO_DocType, posO_DocDate, posO_DocDueDate,
      posO_CardCode, posO_SalesPersonCode, posO_U_AllowDOInv_Dep, posO_U_GSTSGDRate]
    norm_num [getD_set_ne, getD_set_self, ORDR_TOTAL_COLS]
  · intro h
    rw [hOrdr]
    unfold pyGetD
    rw [h]
    decide
  · intro v h
    rw [hOrdr]
    unfold pyGetD
    rw [h]
    rfl
  · intro h
    rw [hRdr1]
    unfold pyGetD
    rw [h]
    decide
  · intro v h
    rw [hRdr1]
    unfold pyGetD
    rw [h]
    rfl

/-- A non-blank order row whose Branch ID column is present but null. -/
def nullBranchRow : Row := rowOf [("Order #", vStr "A"), ("Branch ID", vNone)]

/-- C7 counterexample: a row whose Branch ID value is absent (a null cell
in a present column) renders the rate field as the empty string, not the
claimed default "9". -/
theorem claim_C7_counterexample :
    blankKey nullBranchRow "Order #" = false
    ∧ isNA (pyGet nullBranchRow "Branch ID") = true
    ∧ (ordr_row nullBranchRow).getD 202 "" = ""
    ∧ ¬ (ordr_row nullBranchRow).getD 202 "" = "9" :=
  ⟨by decide, by decide, by decide, by decide⟩

/-- A line row carrying an integer Branch value. -/
def branchRow5 : Row := rowOf [("Branch", vInt 5)]

/-- Witness for C7: the amended theorem applied to a row without the
Branch ID column (default "9") and to a row with Branch = 5. -/
theorem claim_C7_witness :
    rowOf [] "Branch ID" = Option.none
    ∧ (ordr_row (rowOf [])).getD 202 "" = "9"
    ∧ branchRow5 "Branch" = some (vInt 5)
    ∧ (rdr1_row branchRow5).getD 183 "" = safe_str (vInt 5) :=
  ⟨rfl, (claim_C7_constant_fields (rowOf [])).2.2.2.2.2.2.1 rfl,
   rfl, (claim_C7_constant_fields branchRow5).2.2.2.2.2.2.2.2.2 (vInt 5) rfl⟩

lemma dropWhile_eq_self_of_not {p : Char → Bool} :
    ∀ l : List Char, (∀ c ∈ l, p c = false) → l.dropWhile p = l := by
  intro l h
  cases l with
  | nil => rfl
  | cons a t =>
    rw [List.dropWhile_cons]
    simp [h a (List.mem_cons_self a t)]

lemma pyStrip_eq_self {s : String} (h : ∀ c ∈ s.data, pyWS c = false) :
    pyStrip s = s := by
  unfold pyStrip pyStripList
  rw [dropWhile_eq_self_of_not _ h,
    dropWhile_eq_self_of_not _ (fun c hc => h c (List.mem_reverse.1 hc)),
    List.reverse_reverse]

lemma not_ws_of_digit {c : Char} (h : c.isDigit = true) : pyWS c = false := by
  by_contra hb
  have hw : pyWS c = true := by revert hb; cases pyWS c <;> simp
  unfold pyWS at hw
  simp only [Bool.or_eq_true, decide_eq_true_eq] at hw
  rcases hw with ((((rfl | rfl) | rfl) | rfl) | rfl) | rfl <;> exact absurd h (by decide)

lemma natRepr_no_ws (n : Nat) : ∀ c ∈ (natRepr n).data, pyWS c = false :=
  fun c hc => not_ws_of_digit (natDigitsAux_digits (n + 1) n c hc)

lemma floatRepr_no_ws (q : Rat) : ∀ c ∈ (floatRepr q).data, pyWS c = false := by
  intro c hc
  unfold floatRepr at hc
  rw [String.data_append, String.data_append, String.data_append] at hc
  simp only [List.mem_append] at hc
  rcases hc with ((hc | hc) | hc) | hc
  · revert hc
    split <;> intro hc
    · have : c = '-' := by simpa using hc
      subst this
      decide
    · simp at hc
  · exact natRepr_no_ws _ c hc
  · have : c = '.' := by simpa using hc
    subst this
    decide
  · revert hc
    split <;> intro hc
    · have : c = '0' := by simpa using hc
      subst this
      decide
    · exact not_ws_of_digit
        (fracDigits_digits _ _ _ (Nat.mod_lt _ q.den_pos) c hc)

/-- C8: the numeric-to-string rule of `safe_str`: a float with no
fractional part renders as a plain integer literal, any other float via
its direct string form (on which trimming is a no-op, so the trimmed
reading also holds), ints and strings via the trimmed string form, and a
null value as the empty string; concretely 5.0 gives "5", 5.5 gives
"5.5", null gives "". -/
theorem claim_C8_safe_str_rule :
    (∀ q : Rat, q.den = 1 → safe_str (vFloat q) = intRepr q.num)
    ∧ (∀ q : Rat, ¬ q.den = 1 →
        safe_str (vFloat q) = floatRepr q ∧ pyStrip (floatRepr q) = floatRepr q)
    ∧ (∀ n : Int, safe_str (vInt n) = pyStrip (intRepr n))
    ∧ (∀ s : String, safe_str (vStr s) = pyStrip s)
    ∧ safe_str (vFloat (mkRat 5 1)) = "5"
    ∧ safe_str (vFloat (mkRat 11 2)) = "5.5"
    ∧ safe_str vNone = "" := by
  refine ⟨?_, ?_, fun n => rfl, fun s => rfl, by decide, by decide, rfl⟩
  · intro q hq
    show (if q.den = 1 then intRepr q.num else floatRepr q) = intRepr q.num
    rw [if_pos hq]
  · intro q hq
    refine ⟨?_, pyStrip_eq_self (floatRepr_no_ws q)⟩
    show (if q.den = 1 then intRepr q.num else floatRepr q) = floatRepr q
    rw [if_neg hq]

/-- Witness for C8: the rule applied at the concrete floats 7.0 and 5.5. -/
theorem claim_C8_witness :
    (mkRat 7 1).den = 1 ∧ safe_str (vFloat (mkRat 7 1)) = intRepr (mkRat 7 1).num
    ∧ ¬ (mkRat 11 2).den = 1
    ∧ safe_str (vFloat (mkRat 11 2)) = floatRepr (mkRat 11 2)
    ∧ pyStrip (floatRepr (mkRat 11 2)) = floatRepr (mkRat 11 2) :=
  ⟨by decide, claim_C8_safe_str_rule.1 (mkRat 7 1) (by decide), by decide,
   (claim_C8_safe_str_rule.2.1 (mkRat 11 2) (by decide)).1,
   (claim_C8_safe_str_rule.2.1 (mkRat 11 2) (by decide)).2⟩

lemma validate_date_format_str (s : String) :
    validate_date_format (vStr s)
      = (if s.length ≠ 8 then false
         else if !(s.data.all Char.isDigit) then false
         else if chNat (s.data.take 4) < 1900 || chNat (s.data.take 4) > 2100
             || chNat ((s.data.drop 4).take 2) < 1 || chNat ((s.data.drop 4).take 2) > 12
             || chNat ((s.data.drop 6).take 2) < 1 || chNat ((s.data.drop 6).take 2) > 31
           then false else true) := rfl

/-- C6: `validate_date_format` accepts "20260115", accepts any 8-digit
string with year 1900-2100, month 1-12, day 1-31 (no calendar-day check,
so "20260231" passes), and rejects wrong length, bad month, non-digit and
null/empty inputs. -/
theorem claim_C6_date_format :
    validate_date_format (vStr "20260115") = true
    ∧ validate_date_format (vStr "20260231") = true
    ∧ validate_date_format (vStr "2026115") = false
    ∧ validate_date_format (vStr "20261301") = false
    ∧ validate_date_format (vStr "abcd0115") = false
    ∧ validate_date_format vNone = false
    ∧ validate_date_format (vStr "") = false
    ∧ (∀ s : String, s.length = 8 → (∀ c ∈ s.data, c.isDigit = true) →
        1900 ≤ chNat (s.data.take 4) → chNat (s.data.take 4) ≤ 2100 →
        1 ≤ chNat ((s.data.drop 4).take 2) → chNat ((s.data.drop 4).take 2) ≤ 12 →
        1 ≤ chNat ((s.data.drop 6).take 2) → chNat ((s.data.drop 6).take 2) ≤ 31 →
        validate_date_format (vStr s) = true) := by
  refine ⟨by decide, by decide, by decide, by decide, by decide, rfl, by decide, ?_⟩
  intro s h8 hdig hy1 hy2 hm1 hm2 hd1 hd2
  rw [validate_date_format_str]
  rw [if_neg (by omega)]
  rw [if_neg (by simp [List.all_eq_true.2 hdig])]
  rw [if_neg (by simp only [Bool.or_eq_true, decide_eq_true_eq]; omega)]

/-- Witness for C6: the general acceptance clause applied at "19000101". -/
theorem claim_C6_witness :
    ("19000101" : String).length = 8
    ∧ validate_date_format (vStr "19000101") = true :=
  ⟨by decide,
   claim_C6_date_format.2.2.2.2.2.2.2 "19000101" (by decide) (by decide) (by decide)
     (by decide) (by decide) (by decide) (by decide) (by decide)⟩

lemma ordersGo_all_blank :
    ∀ (rows : List Row) (seen : List String) (n : Nat),
      (∀ r ∈ rows, blankKey r "Order #" = true) → ordersGo seen n rows = [] := by
  intro rows
  induction rows with
  | nil => intro seen n _; rfl
  | cons r rs ih =>
    intro seen n h
    unfold ordersGo
    rw [if_pos (h r (List.mem_cons_self r rs))]
    exact ih seen (n + 1) (fun x hx => h x (List.mem_cons_of_mem r hx))

lemma linesGo_all_blank :
    ∀ (rows : List Row) (valid : List String) (n : Nat),
      (∀ r ∈ rows, blankKey r "Parent Order #" = true) →
      linesGo valid n rows = Except.ok [] := by
  intro rows
  induction rows with
  | nil => intro valid n _; rfl
  | cons r rs ih =>
    intro valid n h
    unfold linesGo
    rw [if_pos (h r (List.mem_cons_self r rs))]
    exact ih valid (n + 1) (fun x hx => h x (List.mem_cons_of_mem r hx))

/-- An order row whose key cell holds only whitespace. -/
def blankKeyRow : Row := rowOf [("Order #", vStr " ")]

/-- A line row whose parent-key cell holds only whitespace. -/
def blankParentRow : Row := rowOf [("Parent Order #", vStr " ")]

/-- C5 counterexample: a one-row table whose only row is blank is not an
empty DataFrame, so order validation returns the empty error list instead
of the claimed single sentinel error. -/
theorem claim_C5_counterexample :
    blankKey blankKeyRow "Order #" = true
    ∧ validate_orders [blankKeyRow] = []
    ∧ ¬ validate_orders [blankKeyRow]
        = ["No orders found in \x27Sales Order Entry\x27 sheet"] :=
  ⟨by decide, by decide, by decide⟩

/-- C5 (amended): the sentinel error is produced exactly when the table
has zero rows; a nonempty table all of whose rows are blank yields an
empty error list (a completely missing sheet is rejected by `main` before
validation is reached). -/
theorem claim_C5_empty_sentinel :
    validate_orders [] = ["No orders found in \x27Sales Order Entry\x27 sheet"]
    ∧ (∀ valid : List String, validate_lines [] valid
        = Except.ok ["No line items found in \x27Line Items Entry\x27 sheet"])
    ∧ (∀ rows : List Row, ¬ rows = [] →
        (∀ r ∈ rows, blankKey r "Order #" = true) → validate_orders rows = [])
    ∧ (∀ (rows : List Row) (valid : List String), ¬ rows = [] →
        (∀ r ∈ rows, blankKey r "Parent Order #" = true) →
        validate_lines rows valid = Except.ok []) := by
  refine ⟨rfl, fun valid => rfl, ?_, ?_⟩
  · intro rows hne hb
    unfold validate_orders
    rw [if_neg (by simpa using hne)]
    exact ordersGo_all_blank rows [] 2 hb
  · intro rows valid hne hb
    unfold validate_lines
    rw [if_neg (by simpa using hne)]
    exact linesGo_all_blank rows valid 2 hb

/-- Witness for C5: the amended theorem applied to one-row all-blank
tables. -/
theorem claim_C5_witness :
    ¬ ([blankKeyRow] : List Row) = []
    ∧ validate_orders [blankKeyRow] = []
    ∧ validate_lines [blankParentRow] [] = Except.ok [] :=
  ⟨by simp,
   claim_C5_empty_sentinel.2.2.1 [blankKeyRow] (by simp)
     (by intro r hr; rw [List.mem_singleton.1 hr]; decide),
   claim_C5_empty_sentinel.2.2.2 [blankParentRow] [] (by simp)
     (by intro r hr; rw [List.mem_singleton.1 hr]; decide)⟩

/-- A non-blank line row whose Quantity cell holds a non-numeric string. -/
def quantityRowAbc : Row := rowOf [("Parent Order #", vStr "SO1"), ("Quantity", vStr "abc")]

/-- C4 counterexample: for a present but non-numeric quantity the source
calls `float()` on it, which raises ValueError, so line validation raises
instead of returning a "must be positive" error list. -/
theorem claim_C4_counterexample :
    blankKey quantityRowAbc "Parent Order #" = false
    ∧ isNA (pyGet quantityRowAbc "Quantity") = false
    ∧ validate_lines [quantityRowAbc] ["SO1"] = Except.error () :=
  ⟨by decide, by decide, rfl⟩

/-- C4 (amended): a missing quantity yields the required error; a present
quantity that parses to a non-positive number yields the must-be-positive
error; a positive parse yields no quantity error; a present quantity that
`float()` cannot parse raises an exception that propagates out of the row
check (so validation does not return an error list in that case). -/
theorem claim_C4_quantity_checks :
    (∀ (n : Nat) (r : Row), isNA (pyGet r "Quantity") = true →
        quantityErrs n r = Except.ok [rowMsg n "Quantity is required"])
    ∧ (∀ (n : Nat) (r : Row) (q : Rat), isNA (pyGet r "Quantity") = false →
        pyFloat (pyGetD r "Quantity" (vInt 0)) = some q → q ≤ 0 →
        quantityErrs n r = Except.ok [rowMsg n "Quantity must be positive"])
    ∧ (∀ (n : Nat) (r : Row) (q : Rat), isNA (pyGet r "Quantity") = false →
        pyFloat (pyGetD r "Quantity" (vInt 0)) = some q → 0 < q →
        quantityErrs n r = Except.ok [])
    ∧ (∀ (n : Nat) (r : Row), isNA (pyGet r "Quantity") = false →
        pyFloat (pyGetD r "Quantity" (vInt 0)) = Option.none →
        quantityErrs n r = Except.error ())
    ∧ (∀ (valid : List String) (n : Nat) (r : Row),
        quantityErrs n r = Except.error () →
        lineRowErrors valid n r = Except.error ()) := by
  refine ⟨?_, ?_, ?_, ?_, ?_⟩
  · intro n r h
    unfold quantityErrs
    rw [if_pos h]
  · intro n r q hna hq hle
    unfold quantityErrs
    rw [if_neg (by simp [hna]), hq]
    simp [if_pos hle]
  · intro n r q hna hq hpos
    unfold quantityErrs
    rw [if_neg (by simp [hna]), hq]
    simp [if_neg (not_le.2 hpos)]
  · intro n r hna hq
    unfold quantityErrs
    rw [if_neg (by simp [hna]), hq]
  · intro valid n r h
    unfold lineRowErrors
    rw [h]

/-- A line row with a missing quantity. -/
def quantityRowNull : Row := rowOf [("Parent Order #", vStr "SO1")]

/-- A line row with quantity zero. -/
def quantityRowZero : Row := rowOf [("Parent Order #", vStr "SO1"), ("Quantity", vInt 0)]

/-- Witness for C4: the amended theorem applied to concrete rows with a
missing, a zero, a positive and an unparsable quantity. -/
theorem claim_C4_witness :
    quantityErrs 2 quantityRowNull = Except.ok [rowMsg 2 "Quantity is required"]
    ∧ quantityErrs 2 quantityRowZero = Except.ok [rowMsg 2 "Quantity must be positive"]
    ∧ quantityErrs 2 (rowOf [("Quantity", vInt 3)]) = Except.ok []
    ∧ quantityErrs 2 quantityRowAbc = Except.error ()
    ∧ lineRowErrors ["SO1"] 2 quantityRowAbc = Except.error () :=
  ⟨claim_C4_quantity_checks.1 2 quantityRowNull (by decide),
   claim_C4_quantity_checks.2.1 2 quantityRowZero (mkRat 0 1) (by decide) (by decide) (by decide),
   claim_C4_quantity_checks.2.2.1 2 (rowOf [("Quantity", vInt 3)]) (mkRat 3 1)
     (by decide) (by decide) (by decide),
   claim_C4_quantity_checks.2.2.2.1 2 quantityRowAbc (by decide) (by decide),
   claim_C4_quantity_checks.2.2.2.2 ["SO1"] 2 quantityRowAbc
     (claim_C4_quantity_checks.2.2.2.1 2 quantityRowAbc (by decide) (by decide))⟩

lemma str_eq_of_data {s t : String} (h : s.data = t.data) : s = t := by
  cases s
  cases t
  exact congrArg String.mk h

lemma rowMsg_inj {n : Nat} {a b : String} : rowMsg n a = rowMsg n b ↔ a = b := by
  constructor
  · intro h
    have hd := congrArg String.data h
    unfold rowMsg at hd
    simp only [String.data_append, List.append_assoc] at hd
    exact str_eq_of_data
      (List.append_cancel_left (List.append_cancel_left (List.append_cancel_left hd)))
  · intro h
    rw [h]

lemma dup_suffix_take (k : String) :
    ("Duplicate Order # \x27" ++ k ++ "\x27").data.take 3 = ['D', 'u', 'p'] := by
  rw [String.data_append, String.data_append, List.append_assoc]
  rw [List.take_append_of_le_length (by decide)]
  decide

lemma dup_msg_ne_fixed {n : Nat} {k t : String} (ht : ¬ t.data.take 3 = ['D', 'u', 'p']) :
    ¬ dupMsg n k = rowMsg n t := by
  intro h
  unfold dupMsg at h
  have he := rowMsg_inj.1 h
  exact ht (he ▸ dup_suffix_take k)

lemma dang_suffix_take (k : String) :
    ("Parent Order # \x27" ++ k ++ "\x27 not found in Order Headers").data.take 1 = ['P'] := by
  rw [String.data_append, String.data_append, List.append_assoc]
  rw [List.take_append_of_le_length (by decide)]
  decide

lemma dang_msg_ne_fixed {n : Nat} {k t : String} (ht : ¬ t.data.take 1 = ['P']) :
    ¬ dangMsg n k = rowMsg n t := by
  intro h
  unfold dangMsg at h
  have he := rowMsg_inj.1 h
  exact ht (he ▸ dang_suffix_take k)

lemma mem_ite_singleton {c : Prop} [Decidable c] {x a : String} :
    x ∈ (if c then [a] else []) ↔ c ∧ x = a := by
  split
  · next h => simp [h]
  · next h => simp [h]

lemma mem_dateFieldErrs {x : String} {n : Nat} {label : String} {v : Value}
    (h : x ∈ dateFieldErrs n label v) :
    x = rowMsg n (label ++ " is required")
    ∨ x = rowMsg n (label ++ " must be YYYYMMDD format") := by
  unfold dateFieldErrs at h
  split at h
  · exact Or.inl (List.mem_singleton.1 h)
  split at h
  · exact Or.inr (List.mem_singleton.1 h)
  · simp at h

lemma dup_mem_orderRowErrors_iff (b : Bool) (n : Nat) (r : Row) :
    dupMsg n (orderKey r) ∈ orderRowErrors b n r ↔ b = true := by
  unfold orderRowErrors
  constructor
  · intro h
    simp only [List.mem_append] at h
    rcases h with (((h | h) | h) | h) | h
    · exact (mem_ite_singleton.1 h).1
    · rcases mem_dateFieldErrs h with h | h
      · exact absurd h (dup_msg_ne_fixed (by decide))
      · exact absurd h (dup_msg_ne_fixed (by decide))
    · rcases mem_dateFieldErrs h with h | h
      · exact absurd h (dup_msg_ne_fixed (by decide))
      · exact absurd h (dup_msg_ne_fixed (by decide))
    · exact absurd (mem_ite_singleton.1 h).2 (dup_msg_ne_fixed (by decide))
    · exact absurd (mem_ite_singleton.1 h).2 (dup_msg_ne_fixed (by decide))
  · intro hb
    simp only [List.mem_append]
    exact Or.inl (Or.inl (Or.inl (Or.inl (mem_ite_singleton.2 ⟨hb, rfl⟩))))

lemma flatMap_enumFrom_shift {α β : Type _} :
    ∀ (l : List α) (k : Nat) (f : Nat × α → List β),
      (l.enumFrom k).flatMap f
        = (l.enumFrom 0).flatMap (fun p => f (p.1 + k, p.2)) := by
  intro l
  induction l with
  | nil => intro k f; rfl
  | cons a t ih =>
    intro k f
    rw [List.enumFrom_cons, List.enumFrom_cons, List.flatMap_cons, List.flatMap_cons]
    rw [ih (k + 1) f, ih 1 _]
    simp only [Nat.zero_add]
    have hf : (fun p : Nat × α => f (p.1 + (k + 1), p.2))
        = fun p : Nat × α => f (p.1 + 1 + k, p.2) := by
      funext p
      have h : p.1 + (k + 1) = p.1 + 1 + k := by omega
      rw [h]
    rw [hf]

lemma earlierKeys_zero (rows : List Row) : earlierKeys rows 0 = [] := rfl

lemma earlierKeys_cons (r : Row) (rs : List Row) (i : Nat) :
    earlierKeys (r :: rs) (i + 1)
      = if blankKey r "Order #" = true then earlierKeys rs i
        else orderKey r :: earlierKeys rs i := by
  unfold earlierKeys specOrderKeySet
  rw [List.take_succ_cons, List.filter_cons]
  by_cases hb : blankKey r "Order #" = true
  · rw [if_pos hb]
    simp [hb]
  · rw [if_neg hb]
    simp only [Bool.not_eq_true] at hb
    simp [hb]

lemma ordersGo_eq :
    ∀ (rows : List Row) (seen : List String) (n : Nat),
      ordersGo seen n rows
        = (rows.enumFrom 0).flatMap (fun p =>
            if blankKey p.2 "Order #" = true then []
            else orderRowErrors
              (seen.contains (orderKey p.2)
                || (earlierKeys rows p.1).contains (orderKey p.2))
              (n + p.1) p.2) := by
  intro rows
  induction rows with
  | nil => intro seen n; rfl
  | cons r rs ih =>
    intro seen n
    rw [List.enumFrom_cons, List.flatMap_cons, flatMap_enumFrom_shift rs 1 _]
    simp only [earlierKeys_zero, Nat.add_zero]
    unfold ordersGo
    by_cases hb : blankKey r "Order #" = true
    · rw [if_pos hb, if_pos hb, List.nil_append, ih seen (n + 1)]
      have hf : (fun p : Nat × Row =>
            if blankKey p.2 "Order #" = true then []
            else orderRowErrors
              (seen.contains (orderKey p.2) || (earlierKeys rs p.1).contains (orderKey p.2))
              (n + 1 + p.1) p.2)
          = fun p : Nat × Row =>
            (if blankKey p.2 "Order #" = true then []
             else orderRowErrors
               (seen.contains (orderKey p.2)
                 || (earlierKeys (r :: rs) (p.1 + 1)).contains (orderKey p.2))
               (n + (p.1 + 1)) p.2) := by
        funext p
        rw [earlierKeys_cons, if_pos hb]
        have hn : n + (p.1 + 1) = n + 1 + p.1 := by omega
        rw [hn]
      rw [hf]
    · rw [if_neg hb, if_neg hb, ih (orderKey r :: seen) (n + 1)]
      congr 1
      · have hnil : (([] : List String).contains (orderKey r)) = false := rfl
        rw [hnil, Bool.or_false]
      · have hf : (fun p : Nat × Row =>
              if blankKey p.2 "Order #" = true then []
              else orderRowErrors
                ((orderKey r :: seen).contains (orderKey p.2)
                  || (earlierKeys rs p.1).contains (orderKey p.2))
                (n + 1 + p.1) p.2)
            = fun p : Nat × Row =>
              (if blankKey p.2 "Order #" = true then []
               else orderRowErrors
                 (seen.contains (orderKey p.2)
                   || (earlierKeys (r :: rs) (p.1 + 1)).contains (orderKey p.2))
                 (n + (p.1 + 1)) p.2) := by
          funext p
          rw [earlierKeys_cons, if_neg hb]
          have hn : n + (p.1 + 1) = n + 1 + p.1 := by omega
          rw [hn]
          by_cases hbp : blankKey p.2 "Order #" = true
          · rw [if_pos hbp, if_pos hbp]
          · rw [if_neg hbp, if_neg hbp]
            congr 1
            rw [List.contains_cons, List.contains_cons]
            cases orderKey p.2 == orderKey r <;>
              cases seen.contains (orderKey p.2) <;>
                cases (earlierKeys rs p.1).contains (orderKey p.2) <;> rfl
        rw [hf]

lemma contains_mem {l : List String} {a : String} : l.contains a = true ↔ a ∈ l := by
  simp [List.contains_iff_exists_mem_beq]

lemma earlierKeys_contains_iff (rows : List Row) (i : Nat) (k : String) :
    (earlierKeys rows i).contains k = true
      ↔ ∃ j, j < i ∧ ∃ hj : j < rows.length,
          blankKey (rows.get ⟨j, hj⟩) "Order #" = false
          ∧ orderKey (rows.get ⟨j, hj⟩) = k := by
  rw [contains_mem]
  unfold earlierKeys specOrderKeySet
  constructor
  · intro h
    rcases List.mem_map.1 h with ⟨r, hr, rfl⟩
    rcases List.mem_filter.1 hr with ⟨hmem, hp⟩
    rcases List.mem_iff_getElem.1 hmem with ⟨j, hjl, hje⟩
    have hlen : (rows.take i).length = min i rows.length := List.length_take i rows
    have hjlen : j < rows.length := by omega
    have hji : j < i := by omega
    have hgr : rows.get ⟨j, hjlen⟩ = r := by
      rw [List.get_eq_getElem, ← List.getElem_take rows, hje]
    refine ⟨j, hji, hjlen, ?_, ?_⟩
    · rw [hgr]
      simpa using hp
    · rw [hgr]
  · rintro ⟨j, hji, hjlen, hbf, hok⟩
    refine List.mem_map.2 ⟨rows.get ⟨j, hjlen⟩, List.mem_filter.2 ⟨?_, by simpa using hbf⟩, hok⟩
    have hlen : (rows.take i).length = min i rows.length := List.length_take i rows
    refine List.mem_iff_getElem.2 ⟨j, by omega, ?_⟩
    rw [List.getElem_take rows]
    exact (List.get_eq_getElem rows ⟨j, hjlen⟩).symm

/-- C2: order validation concatenates, per non-blank row in order, the
chunk `orderRowErrors` computed with a duplicate flag; the duplicate
message for a row belongs to its chunk exactly when the flag is set; and
the flag is set exactly when the same trimmed key occurs at an earlier
non-blank row index, so the first occurrence is never flagged. -/
theorem claim_C2_duplicate_iff (rows : List Row) :
    validate_orders rows
      = (if rows.isEmpty then ["No orders found in \x27Sales Order Entry\x27 sheet"]
         else (rows.enumFrom 0).flatMap (fun p =>
           if blankKey p.2 "Order #" = true then []
           else orderRowErrors ((earlierKeys rows p.1).contains (orderKey p.2))
             (2 + p.1) p.2))
    ∧ (∀ (b : Bool) (n : Nat) (r : Row),
        (dupMsg n (orderKey r) ∈ orderRowErrors b n r) ↔ b = true)
    ∧ (∀ (i : Nat) (h : i < rows.length),
        (earlierKeys rows i).contains (orderKey (rows.get ⟨i, h⟩)) = true
          ↔ ∃ j, j < i ∧ ∃ hj : j < rows.length,
              blankKey (rows.get ⟨j, hj⟩) "Order #" = false
              ∧ orderKey (rows.get ⟨j, hj⟩) = orderKey (rows.get ⟨i, h⟩)) := by
  refine ⟨?_, dup_mem_orderRowErrors_iff, fun i h => earlierKeys_contains_iff rows i _⟩
  unfold validate_orders
  by_cases he : rows.isEmpty
  · rw [if_pos he, if_pos he]
  · rw [if_neg he, if_neg he, ordersGo_eq rows [] 2]
    congr 1

/-- A non-blank order row with key "A". -/
def rowA : Row := rowOf [("Order #", vStr "A")]

/-- Witness for C2: the theorem applied to a two-row table repeating the
key "A"; the second row's duplicate flag is set and resolves to the
earlier-occurrence condition, and chunk membership tracks the flag. -/
theorem claim_C2_witness :
    ((dupMsg 3 (orderKey rowA) ∈ orderRowErrors true 3 rowA) ↔ true = true)
    ∧ ((dupMsg 2 (orderKey rowA) ∈ orderRowErrors false 2 rowA) ↔ false = true)
    ∧ ((earlierKeys [rowA, rowA] 1).contains
          (orderKey (([rowA, rowA] : List Row).get ⟨1, by decide⟩)) = true
        ↔ ∃ j, j < 1 ∧ ∃ hj : j < ([rowA, rowA] : List Row).length,
            blankKey (([rowA, rowA] : List Row).get ⟨j, hj⟩) "Order #" = false
            ∧ orderKey (([rowA, rowA] : List Row).get ⟨j, hj⟩)
              = orderKey (([rowA, rowA] : List Row).get ⟨1, by decide⟩)) :=
  ⟨(claim_C2_duplicate_iff [rowA, rowA]).2.1 true 3 rowA,
   (claim_C2_duplicate_iff [rowA, rowA]).2.1 false 2 rowA,
   (claim_C2_duplicate_iff [rowA, rowA]).2.2 1 (by decide)⟩

/-- The per-row error chunks of the line-validation loop (same recursion
as `linesGo`, keeping the chunks separate). -/
def lineChunks (valid : List String) (n : Nat) : List Row → Except Unit (List (List String))
  | [] => Except.ok []
  | r :: rs =>
    if blankKey r "Parent Order #" then lineChunks valid (n + 1) rs
    else
      match lineRowErrors valid n r with
      | Except.error e => Except.error e
      | Except.ok errs =>
        match lineChunks valid (n + 1) rs with
        | Except.error e => Except.error e
        | Except.ok rest => Except.ok (errs :: rest)

lemma linesGo_eq_chunks :
    ∀ (rows : List Row) (valid : List String) (n : Nat),
      linesGo valid n rows = (lineChunks valid n rows).map (fun l => l.flatten) := by
  intro rows
  induction rows with
  | nil => intro valid n; rfl
  | cons r rs ih =>
    intro valid n
    unfold linesGo lineChunks
    by_cases hb : blankKey r "Parent Order #" = true
    · rw [if_pos hb, if_pos hb]
      exact ih valid (n + 1)
    · rw [if_neg hb, if_neg hb]
      cases hE : lineRowErrors valid n r with
      | error e => rfl
      | ok errs =>
        rw [ih valid (n + 1)]
        cases hC : lineChunks valid (n + 1) rs with
        | error e => rfl
        | ok rest => rfl

lemma rowMsg_ne_of_ne {n : Nat} {a b : String} (hab : ¬ a = b) : ¬ rowMsg n a = rowMsg n b :=
  fun h => hab (rowMsg_inj.1 h)

lemma mem_quantityErrs_ok {n : Nat} {r : Row} {l : List String}
    (h : quantityErrs n r = Except.ok l) :
    ∀ x ∈ l, x = rowMsg n "Quantity is required"
      ∨ x = rowMsg n "Quantity must be positive" := by
  unfold quantityErrs at h
  split at h
  · injection h with h
    subst h
    intro x hx
    exact Or.inl (List.mem_singleton.1 hx)
  · split at h
    · exact absurd h (by exact fun hh => Except.noConfusion hh)
    · injection h with h
      subst h
      intro x hx
      split at hx
      · exact Or.inr (List.mem_singleton.1 hx)
      · simp at hx

lemma dang_mem_lineRowErrors_iff {valid : List String} {n : Nat} {r : Row}
    {errs : List String} (h : lineRowErrors valid n r = Except.ok errs) :
    (dangMsg n (lineKey r) ∈ errs ↔ valid.contains (lineKey r) = false) := by
  unfold lineRowErrors at h
  cases hq : quantityErrs n r with
  | error e =>
    rw [hq] at h
    exact absurd h (by exact fun hh => Except.noConfusion hh)
  | ok qErrs =>
    rw [hq] at h
    injection h with h
    subst h
    constructor
    · intro hm
      simp only [List.mem_append] at hm
      rcases hm with (((((((hm | hm) | hm) | hm) | hm) | hm) | hm) | hm)
      · have hc := (mem_ite_singleton.1 hm).1
        simpa using hc
      · exact absurd (mem_ite_singleton.1 hm).2 (dang_msg_ne_fixed (by decide))
      · exact absurd (mem_ite_singleton.1 hm).2 (dang_msg_ne_fixed (by decide))
      · rcases mem_quantityErrs_ok hq _ hm with hm | hm
        · exact absurd hm (dang_msg_ne_fixed (by decide))
        · exact absurd hm (dang_msg_ne_fixed (by decide))
      · exact absurd (mem_ite_singleton.1 hm).2 (dang_msg_ne_fixed (by decide))
      · exact absurd (mem_ite_singleton.1 hm).2 (dang_msg_ne_fixed (by decide))
      · exact absurd (mem_ite_singleton.1 hm).2 (dang_msg_ne_fixed (by decide))
      · exact absurd (mem_ite_singleton.1 hm).2 (dang_msg_ne_fixed (by decide))
    · intro hc
      simp only [List.mem_append]
      exact Or.inl (Or.inl (Or.inl (Or.inl (Or.inl (Or.inl (Or.inl
        (mem_ite_singleton.2 ⟨by rw [hc]; rfl, rfl⟩)))))))

lemma lineNum_mem_lineRowErrors_iff {valid : List String} {n : Nat} {r : Row}
    {errs : List String} (h : lineRowErrors valid n r = Except.ok errs) :
    (rowMsg n "Line # is required" ∈ errs ↔ isNA (pyGet r "Line #") = true) := by
  unfold lineRowErrors at h
  cases hq : quantityErrs n r with
  | error e =>
    rw [hq] at h
    exact absurd h (by exact fun hh => Except.noConfusion hh)
  | ok qErrs =>
    rw [hq] at h
    injection h with h
    subst h
    constructor
    · intro hm
      simp only [List.mem_append] at hm
      rcases hm with (((((((hm | hm) | hm) | hm) | hm) | hm) | hm) | hm)
      · exact absurd ((mem_ite_singleton.1 hm).2.symm) (dang_msg_ne_fixed (by decide))
      · exact (mem_ite_singleton.1 hm).1
      · exact absurd (mem_ite_singleton.1 hm).2 (rowMsg_ne_of_ne (by decide))
      · rcases mem_quantityErrs_ok hq _ hm with hm | hm
        · exact absurd hm (rowMsg_ne_of_ne (by decide))
        · exact absurd hm (rowMsg_ne_of_ne (by decide))
      · exact absurd (mem_ite_singleton.1 hm).2 (rowMsg_ne_of_ne (by decide))
      · exact absurd (mem_ite_singleton.1 hm).2 (rowMsg_ne_of_ne (by decide))
      · exact absurd (mem_ite_singleton.1 hm).2 (rowMsg_ne_of_ne (by decide))
      · exact absurd (mem_ite_singleton.1 hm).2 (rowMsg_ne_of_ne (by decide))
    · intro hc
      simp only [List.mem_append]
      exact Or.inl (Or.inl (Or.inl (Or.inl (Or.inl (Or.inl (Or.inr
        (mem_ite_singleton.2 ⟨hc, rfl⟩)))))))

lemma lineKey_ne_empty {r : Row} (h : blankKey r "Parent Order #" = false) :
    ¬ lineKey r = "" := by
  intro he
  unfold lineKey at he
  unfold blankKey at h
  rw [he] at h
  simp at h

lemma valid_sets_agree {orders : List Row} {k : String} (hk : ¬ k = "") :
    (mainValidOrders orders).contains k = (specOrderKeySet orders).contains k := by
  refine Bool.eq_iff_iff.2 ?_
  rw [contains_mem, contains_mem]
  unfold mainValidOrders specOrderKeySet
  constructor
  · intro h
    rcases List.mem_map.1 h with ⟨r, hr, rfl⟩
    rcases List.mem_filter.1 hr with ⟨hmem, hp⟩
    refine List.mem_map.2 ⟨r, List.mem_filter.2 ⟨hmem, ?_⟩, rfl⟩
    have h1 : isNA (pyGet r "Order #") = false := by simpa using hp
    have h2 : (orderKey r == "") = false := beq_eq_false_iff_ne.2 hk
    show (!(isNA (pyGet r "Order #") || (pyStrip (pyStr (pyGet r "Order #")) == "")))
      = true
    rw [h1, show (pyStrip (pyStr (pyGet r "Order #")) == "") = false from h2]
    rfl
  · intro h
    rcases List.mem_map.1 h with ⟨r, hr, rfl⟩
    rcases List.mem_filter.1 hr with ⟨hmem, hp⟩
    refine List.mem_map.2 ⟨r, List.mem_filter.2 ⟨hmem, ?_⟩, rfl⟩
    have hb : blankKey r "Order #" = false := by simpa using hp
    unfold blankKey at hb
    have h1 : isNA (pyGet r "Order #") = false := by
      revert hb
      cases isNA (pyGet r "Order #") <;> simp
    rw [h1]
    rfl

/-- C3 (amended): with the key set that `main` computes before line
validation runs, validate_lines is the chunk-per-row map, and a non-blank
row whose checks return an error list (no exception from the quantity
check) has the dangling-parent message in its chunk exactly when the
trimmed parent key is absent from the set of trimmed non-blank order
keys.  The no-exception proviso is forced by `claim_C3_counterexample`. -/
theorem claim_C3_dangling_iff (orders rows : List Row) :
    validate_lines rows (mainValidOrders orders)
      = (if rows.isEmpty then
           Except.ok ["No line items found in \x27Line Items Entry\x27 sheet"]
         else (lineChunks (mainValidOrders orders) 2 rows).map (fun l => l.flatten))
    ∧ (∀ (n : Nat) (r : Row) (errs : List String),
        blankKey r "Parent Order #" = false →
        lineRowErrors (mainValidOrders orders) n r = Except.ok errs →
        (dangMsg n (lineKey r) ∈ errs ↔ ¬ lineKey r ∈ specOrderKeySet orders)) := by
  constructor
  · unfold validate_lines
    by_cases he : rows.isEmpty
    · rw [if_pos he, if_pos he]
    · rw [if_neg he, if_neg he]
      exact linesGo_eq_chunks rows _ 2
  · intro n r errs hnb hok
    rw [dang_mem_lineRowErrors_iff hok, valid_sets_agree (lineKey_ne_empty hnb),
      ← contains_mem]
    constructor
    · intro h
      rw [h]
      simp
    · intro h
      simpa using h

/-- A non-blank line row whose parent key "B" matches no order and whose
Quantity cell holds a non-numeric string. -/
def rowDangAbc : Row := rowOf [("Parent Order #", vStr "B"), ("Quantity", vStr "abc")]

/-- C3 counterexample: this non-blank row has a dangling parent key, yet
line validation raises (the quantity reaches `float()`, which fails) and
returns no error list at all, so no dangling-parent error is produced and
the claimed iff fails as stated. -/
theorem claim_C3_counterexample :
    blankKey rowDangAbc "Parent Order #" = false
    ∧ ¬ lineKey rowDangAbc ∈ specOrderKeySet [rowA]
    ∧ validate_lines [rowDangAbc] (mainValidOrders [rowA]) = Except.error ()
    ∧ (∀ errs : List String,
        ¬ validate_lines [rowDangAbc] (mainValidOrders [rowA]) = Except.ok errs) :=
  ⟨by decide, by decide, rfl,
   fun errs h => Except.noConfusion
     ((rfl : validate_lines [rowDangAbc] (mainValidOrders [rowA])
        = Except.error ()).symm.trans h)⟩

/-- A non-blank line row whose parent key "B" matches no order. -/
def rowDangB : Row := rowOf [("Parent Order #", vStr "B"), ("Quantity", vInt 1)]

/-- Witness for C3: the theorem applied to the order table [rowA] (key
"A") and a line row with parent key "B"; its chunk contains the dangling
message and "B" is indeed absent from the spec key set. -/
theorem claim_C3_witness :
    blankKey rowDangB "Parent Order #" = false
    ∧ lineRowErrors (mainValidOrders [rowA]) 2 rowDangB
        = Except.ok [dangMsg 2 "B", rowMsg 2 "Line # is required",
            rowMsg 2 "Item Code is required", rowMsg 2 "Warehouse is required",
            rowMsg 2 "Sales Code is required", rowMsg 2 "Account Code is required",
            rowMsg 2 "VAT Group is required"]
    ∧ (dangMsg 2 (lineKey rowDangB)
          ∈ [dangMsg 2 "B", rowMsg 2 "Line # is required",
             rowMsg 2 "Item Code is required", rowMsg 2 "Warehouse is required",
             rowMsg 2 "Sales Code is required", rowMsg 2 "Account Code is required",
             rowMsg 2 "VAT Group is required"]
        ↔ ¬ lineKey rowDangB ∈ specOrderKeySet [rowA]) :=
  ⟨by decide, rfl,
   (claim_C3_dangling_iff [rowA] [rowDangB]).2 2 rowDangB _ (by decide) rfl⟩

/-- A line row whose Line # and Item Code cells hold whitespace-only
strings, with every other required field present and valid. -/
def wsLineRow : Row :=
  rowOf [("Parent Order #", vStr "SO1"), ("Line #", vStr " "),
    ("Item Code", vStr " "), ("Quantity", vInt 5), ("Warehouse", vStr "W"),
    ("Sales Code", vStr "S"), ("Account Code", vStr "A"), ("VAT Group", vStr "V")]

/-- C10: the Line # presence check is only a null check: the message
appears in a row's chunk exactly when the cell is NaN, and a non-null
whitespace-only string is never NaN; by contrast a whitespace-only Item
Code is flagged, as the concrete run shows. -/
theorem claim_C10_line_number_presence (valid : List String) :
    (∀ (n : Nat) (r : Row) (errs : List String),
        lineRowErrors valid n r = Except.ok errs →
        (rowMsg n "Line # is required" ∈ errs ↔ isNA (pyGet r "Line #") = true))
    ∧ (∀ s : String, isNA (vStr s) = false)
    ∧ blankVal (vStr " ") = true
    ∧ validate_lines [wsLineRow] ["SO1"]
        = Except.ok [rowMsg 2 "Item Code is required"] := by
  refine ⟨?_, fun s => rfl, by decide, rfl⟩
  intro n r errs hok
  exact lineNum_mem_lineRowErrors_iff hok

/-- Witness for C10: the general clause applied to the concrete run on
`wsLineRow` (whitespace Line # produces no Line # error). -/
theorem claim_C10_witness :
    lineRowErrors ["SO1"] 2 wsLineRow = Except.ok [rowMsg 2 "Item Code is required"]
    ∧ (rowMsg 2 "Line # is required" ∈ [rowMsg 2 "Item Code is required"]
        ↔ isNA (pyGet wsLineRow "Line #") = true) :=
  ⟨rfl,
   (claim_C10_line_number_presence ["SO1"]).1 2 wsLineRow _ rfl⟩
